import Mathlib

/-!
Verification development for the battery control engine of `tinkerbms`
(`src/tinkerbms/battery.py`).  Python floats are modelled as rationals
(`ℚ`), Python `None` as `Option.none`, monotonic timestamps as `ℚ`
(values of `time()`) truncated to `ℤ` where the source writes
`int(time())`.  Fields whose `None`-ness never influences the verified
control flow and which the source reads arithmetically are modelled as
plain rationals (a `None` there would raise an uncaught `TypeError`,
so no post-state would exist).

The module `utils` (configuration constants and the two interpolation
primitives `calcLinearRelationship` / `calcStepRelationship`) is not part
of the sources under verification; its constants appear as fields of a
`Config` record and its interpolation routines as function parameters.
-/

namespace TinkerBMS

/-- Python `round(x, n)` on rationals: round to `n` decimal places.
Python uses banker's rounding at exact half-way points while Mathlib's
`round` rounds half up; none of the verified properties depends on
half-way behaviour. -/
def roundTo (n : ℕ) (x : ℚ) : ℚ := (round (x * (10 : ℚ) ^ n) : ℤ) / (10 : ℚ) ^ n

/-- The idiom `min(max(x, lo), hi)` used throughout `battery.py`. -/
def clamp (x lo hi : ℚ) : ℚ := min (max x lo) hi

/-- Python truthiness of an optional integer (`None` and `0` are falsy),
used for `if self.soc_calc_reset_starttime:`-style tests. -/
def intTruthy : Option ℤ → Bool
  | none => false
  | some n => n ≠ 0

/-- Python `str.startswith`, modelled over the character lists of the
strings (behaviourally the prefix test `battery.py` performs with
`self.charge_mode.startswith(...)`). -/
def pyStartsWith (s pre : String) : Bool := pre.data.isPrefixOf s.data

/-- Python truthiness of an optional float (`None` and `0.0` are falsy),
used for `if voltage:` / `if self.control_voltage:`-style tests. -/
def ratTruthy : Option ℚ → Bool
  | none => false
  | some v => v ≠ 0

/-- The configuration constants of `utils` that `battery.py` reads. -/
structure Config where
  MIN_CELL_VOLTAGE : ℚ
  MAX_CELL_VOLTAGE : ℚ
  FLOAT_CELL_VOLTAGE : ℚ
  SOC_RESET_VOLTAGE : ℚ
  SOC_RESET_CURRENT : ℚ
  SOC_RESET_TIME : ℤ
  VOLTAGE_DROP : ℚ
  MAX_VOLTAGE_TIME_SEC : ℤ
  SOC_LEVEL_TO_RESET_VOLTAGE_LIMIT : ℚ
  CELL_VOLTAGE_DIFF_KEEP_MAX_VOLTAGE_UNTIL : ℚ
  CELL_VOLTAGE_DIFF_KEEP_MAX_VOLTAGE_TIME_RESTART : ℚ
  CELL_VOLTAGE_DIFF_TO_RESET_VOLTAGE_LIMIT : ℚ
  LINEAR_RECALCULATION_EVERY : ℤ
  LINEAR_RECALCULATION_ON_PERC_CHANGE : ℚ
  CVL_ICONTROLLER_MODE : Bool
  CVL_ICONTROLLER_FACTOR : ℚ
  MAX_BATTERY_CHARGE_CURRENT : ℚ
  MAX_BATTERY_DISCHARGE_CURRENT : ℚ
  CCCM_CV_ENABLE : Bool
  CCCM_T_ENABLE : Bool
  CCCM_SOC_ENABLE : Bool
  DCCM_CV_ENABLE : Bool
  DCCM_T_ENABLE : Bool
  DCCM_SOC_ENABLE : Bool

/-- Per-cell telemetry, from class `Cell` (voltage and balance flag;
the optional per-cell temperature is never read by the verified code). -/
structure Cell where
  voltage : Option ℚ
  balance : Option Bool
deriving Repr, DecidableEq

/-- Embedding of `Battery.get_cell_voltage`: `None` beyond
`min(len(cells), cell_count)`, else the cell's (optional) voltage. -/
def get_cell_voltage (cells : List Cell) (cell_count : ℕ) (idx : ℕ) : Option ℚ :=
  if idx ≥ min cells.length cell_count then none
  else (cells[idx]?).bind Cell.voltage

/-- Embedding of `Battery.get_min_cell_voltage`: a driver-populated
`cell_min_voltage` attribute wins when present (`hasattr` and the
`is None` fallback collapse to the `Option`), else the minimum over all
non-`None` voltages of `self.cells`; `None` when there is none. -/
def get_min_cell_voltage (cells : List Cell) (cell_min_voltage : Option ℚ) : Option ℚ :=
  match cell_min_voltage with
  | some v => some v
  | none =>
    match cells.filterMap Cell.voltage with
    | [] => none
    | v :: vs => some (vs.foldl min v)

/-- Embedding of `Battery.get_max_cell_voltage`, symmetric to
`get_min_cell_voltage`. -/
def get_max_cell_voltage (cells : List Cell) (cell_max_voltage : Option ℚ) : Option ℚ :=
  match cell_max_voltage with
  | some v => some v
  | none =>
    match cells.filterMap Cell.voltage with
    | [] => none
    | v :: vs => some (vs.foldl max v)

/-- Embedding of `Battery.get_balancing` (an `int` 1/0 in the source, used
only as a truth value): some cell among the first
`min(len(cells), cell_count)` has a truthy balance flag. -/
def get_balancing (cells : List Cell) (cell_count : ℕ) : Bool :=
  (List.range (min cells.length cell_count)).any fun c =>
    match cells[c]? with
    | some cell => cell.balance = some true
    | none => false

/-!  String labels assembled by the source (hoisted to definitions). -/

def labelBulkDynamic : String := "Bulk dynamic"
def labelAbsorptionDynamic : String := "Absorption dynamic"
def labelBulk : String := "Bulk"
def labelAbsorption : String := "Absorption"
def labelSocReset : String := " & SoC Reset"
def labelFloat : String := "Float"
def labelFloatTransition : String := "Float Transition"
def labelBalancing : String := " + Balancing"
def labelLinearMode : String := " (Linear Mode)"
def labelDashes : String := "--"
def labelMaxChargeCurrent : String := "Max Battery Charge Current"
def labelMaxDischargeCurrent : String := "Max Battery Discharge Current"
def labelBmsSettings : String := "BMS Settings"
def labelCellVoltage : String := "Cell Voltage"
def labelTemp : String := "Temp"
def labelSoc : String := "SoC"
def labelBms : String := "BMS"
def labelCommaSep : String := ", "

/-!  Lifecycle: `Battery.__init__` / `Battery.init_values` (claim C1). -/

/-- The mutable fields of a `Battery` object that `__init__` and
`init_values` assign.  Object-valued fields that no verified claim reads
(`production`, `protection`, `version`, `available_callbacks`,
`custom_field` and the static port/baud/type fields) are omitted. -/
structure BatteryState where
  -- assigned in `__init__` only, above the comment
  -- "this values should only be initialized once, else the BMS turns off
  --  the inverter on disconnect"
  soc_calc_capacity_remain : Option ℚ
  soc_calc_capacity_remain_lasttime : Option ℚ
  soc_calc_reset_starttime : Option ℤ
  soc_calc : Option ℚ
  soc : Option ℚ
  charge_fet : Option Bool
  discharge_fet : Option Bool
  balance_fet : Option Bool
  block_because_disconnect : Bool
  control_charge_current : Option ℚ
  control_discharge_current : Option ℚ
  control_allow_charge : Option Bool
  control_allow_discharge : Option Bool
  -- assigned on every call of `init_values`
  voltage : Option ℚ
  current : Option ℚ
  current_avg : Option ℚ
  current_avg_lst : List ℚ
  current_corrected : Option ℚ
  capacity_remain : Option ℚ
  capacity : Option ℚ
  cycles : Option ℚ
  total_ah_drawn : Option ℚ
  time_to_soc_update : ℤ
  temp_sensors : Option ℤ
  temp1 : Option ℚ
  temp2 : Option ℚ
  temp3 : Option ℚ
  temp4 : Option ℚ
  temp_mos : Option ℚ
  cells : List Cell
  control_voltage : Option ℚ
  soc_reset_requested : Bool
  soc_reset_last_reached : ℤ
  soc_reset_battery_voltage : Option ℚ
  max_battery_voltage : Option ℚ
  min_battery_voltage : Option ℚ
  allow_max_voltage : Bool
  max_voltage_start_time : Option ℤ
  transition_start_time : Option ℤ
  charge_mode : Option String
  charge_mode_debug : String
  charge_limitation : Option String
  discharge_limitation : Option String
  linear_cvl_last_set : ℤ
  linear_ccl_last_set : ℤ
  linear_dcl_last_set : ℤ
deriving Repr, DecidableEq

/-- Embedding of `Battery.init_values` (battery.py lines 95–136): exactly
the assignments the source performs there; fields assigned only in
`__init__` are untouched.  Note that the source does assign
`soc_reset_last_reached = 0`, `allow_max_voltage = True` and
`max_voltage_start_time = None` inside `init_values`, despite the
"save state to preserve on restart" comments on those very lines. -/
def init_values (s : BatteryState) : BatteryState :=
  { s with
    voltage := none
    current := none
    current_avg := none
    current_avg_lst := []
    current_corrected := none
    capacity_remain := none
    capacity := none
    cycles := none
    total_ah_drawn := none
    time_to_soc_update := 0
    temp_sensors := none
    temp1 := none
    temp2 := none
    temp3 := none
    temp4 := none
    temp_mos := none
    cells := []
    control_voltage := none
    soc_reset_requested := false
    soc_reset_last_reached := 0
    soc_reset_battery_voltage := none
    max_battery_voltage := none
    min_battery_voltage := none
    allow_max_voltage := true
    max_voltage_start_time := none
    transition_start_time := none
    charge_mode := none
    charge_mode_debug := ""
    charge_limitation := none
    discharge_limitation := none
    linear_cvl_last_set := 0
    linear_ccl_last_set := 0
    linear_dcl_last_set := 0 }

/-- A concrete pre-disconnect state used to evaluate `init_values`: the
battery has been running (telemetry populated), Absorption has completed
once (`allow_max_voltage = false`), a SoC-reset excursion was reached at
time 100, and an Absorption timer is running. -/
def c1State : BatteryState :=
  { soc_calc_capacity_remain := some 80
    soc_calc_capacity_remain_lasttime := some 5000
    soc_calc_reset_starttime := some 4000
    soc_calc := some 80
    soc := some 79
    charge_fet := some true
    discharge_fet := some true
    balance_fet := some true
    block_because_disconnect := false
    control_charge_current := some 50
    control_discharge_current := some 60
    control_allow_charge := some true
    control_allow_discharge := some true
    voltage := some (13.3 : ℚ)
    current := some 5
    current_avg := some 5
    current_avg_lst := [5]
    current_corrected := some 5
    capacity_remain := some 80
    capacity := some 100
    cycles := some 3
    total_ah_drawn := some 250
    time_to_soc_update := 0
    temp_sensors := some 2
    temp1 := some 20
    temp2 := some 21
    temp3 := none
    temp4 := none
    temp_mos := some 25
    cells := [⟨some (3.3 : ℚ), some false⟩, ⟨some (3.32 : ℚ), some false⟩]
    control_voltage := some (13.8 : ℚ)
    soc_reset_requested := false
    soc_reset_last_reached := 100
    soc_reset_battery_voltage := some (14.6 : ℚ)
    max_battery_voltage := some (13.8 : ℚ)
    min_battery_voltage := some (11.6 : ℚ)
    allow_max_voltage := false
    max_voltage_start_time := some 50
    transition_start_time := none
    charge_mode := some (labelFloat ++ labelLinearMode)
    charge_mode_debug := ""
    charge_limitation := some labelMaxChargeCurrent
    discharge_limitation := some labelMaxDischargeCurrent
    linear_cvl_last_set := 4900
    linear_ccl_last_set := 4900
    linear_dcl_last_set := 4900 }

/-- C1: the claim states that `init_values` preserves all four fields
marked "preserve on restart" (`soc_calc`, `soc_reset_last_reached`,
`allow_max_voltage`, `max_voltage_start_time`).  The code contradicts its
own comments for three of them: evaluated at `c1State`, `init_values`
preserves `soc_calc` (assigned only in `__init__`) but resets
`soc_reset_last_reached` from 100 to 0, `allow_max_voltage` from `false`
to `true` and `max_voltage_start_time` from `some 50` to `none`, while
clearing telemetry. -/
theorem C1_init_values_resets_three_persistent_fields :
    (init_values c1State).soc_calc = some 80 ∧
    c1State.soc_reset_last_reached = 100 ∧
      (init_values c1State).soc_reset_last_reached = 0 ∧
    c1State.allow_max_voltage = false ∧
      (init_values c1State).allow_max_voltage = true ∧
    c1State.max_voltage_start_time = some 50 ∧
      (init_values c1State).max_voltage_start_time = none ∧
    (init_values c1State).voltage = none ∧
    (init_values c1State).current = none ∧
    (init_values c1State).cells = [] := by
  refine ⟨rfl, rfl, rfl, rfl, rfl, rfl, rfl, rfl, rfl, rfl⟩

/-!  Coulomb counter: `Battery.soc_calculation` (claims C3, C5). -/

/-- The `voltage_sum` loop shared by `soc_calculation` and the voltage
managers: the source iterates `for i in range(self.cell_count)` over
`get_cell_voltage(i)`, which yields exactly the voltages of the first
`min(len(cells), cell_count)` cells, and adds the Python-truthy ones
(skipping `None` and `0.0`); hence a fold over `cells.take cell_count`. -/
def cell_voltage_sum (cells : List Cell) (cell_count : ℕ) : ℚ :=
  (cells.take cell_count).foldl
    (fun acc c =>
      match c.voltage with
      | some v => if v ≠ 0 then acc + v else acc
      | none => acc) 0

/-- The fields of `Battery` read or written by `soc_calculation`.  Fields
the function reads arithmetically without a `None` check (`current`,
`capacity`, `max_battery_voltage`, `soc_calc_capacity_remain_lasttime`
when the accumulator is present) are modelled as plain rationals. -/
structure SocState where
  cells : List Cell
  cell_count : ℕ
  cell_min_voltage : Option ℚ
  current : ℚ
  soc : Option ℚ
  soc_calc : Option ℚ
  capacity : ℚ
  max_battery_voltage : ℚ
  soc_calc_capacity_remain : Option ℚ
  soc_calc_capacity_remain_lasttime : ℚ
  soc_calc_reset_starttime : Option ℤ
  current_corrected : ℚ
deriving Repr, DecidableEq

/-- Embedding of `Battery.soc_calculation` (battery.py lines 247–353).
`corr` stands for `utils.calcLinearRelationship(current, …)` — the
user-calibrated current correction from the `utils` module, which is not
part of the sources under verification — and `t` for `time()`.  The
result is `none` when the source would raise a `TypeError`
(comparing a `None` minimum cell voltage, or `self.soc > 0` with `soc`
`None`). -/
def soc_calculation (cfg : Config) (corr : ℚ → ℚ) (t : ℚ) (s : SocState) : Option SocState :=
  let voltage_sum := cell_voltage_sum s.cells s.cell_count
  let cmv := get_min_cell_voltage s.cells s.cell_min_voltage
  match s.soc_calc_capacity_remain with
  | some remain0 =>
    let cc := roundTo 2 (corr s.current)
    let remain1 := remain0 + cc * (t - s.soc_calc_capacity_remain_lasttime) / 3600
    let remain2 := max (min remain1 s.capacity) 0
    match cmv with
    | none => none
    | some mv =>
      let fullStep : ℚ × Option ℤ :=
        if mv > cfg.MAX_CELL_VOLTAGE * (0.99 : ℚ) then
          if s.current < cfg.SOC_RESET_CURRENT ∧
              s.max_battery_voltage - cfg.VOLTAGE_DROP ≤ voltage_sum ∧
              intTruthy s.soc_calc_reset_starttime then
            if ⌊t⌋ - s.soc_calc_reset_starttime.getD 0 > cfg.SOC_RESET_TIME ∧
                remain2 ≠ s.capacity then
              (s.capacity, s.soc_calc_reset_starttime)
            else (remain2, s.soc_calc_reset_starttime)
          else (remain2, some ⌊t⌋)
        else (remain2, s.soc_calc_reset_starttime)
      let emptyStep : ℚ × Option ℤ :=
        if mv < cfg.MIN_CELL_VOLTAGE * (1.01 : ℚ) then
          if s.current < cfg.SOC_RESET_CURRENT ∧
              mv - cfg.VOLTAGE_DROP / (s.cell_count : ℚ) ≤ cfg.MIN_CELL_VOLTAGE ∧
              intTruthy fullStep.2 then
            if ⌊t⌋ - fullStep.2.getD 0 > cfg.SOC_RESET_TIME ∧ fullStep.1 ≠ 0 then
              (0, fullStep.2)
            else (fullStep.1, fullStep.2)
          else (fullStep.1, some ⌊t⌋)
        else (fullStep.1, fullStep.2)
      some { s with
        current_corrected := cc
        soc_calc_capacity_remain := some emptyStep.1
        soc_calc_capacity_remain_lasttime := t
        soc_calc_reset_starttime := emptyStep.2
        soc_calc := some (roundTo 2 (max (min (emptyStep.1 / s.capacity * 100) 100) 0)) }
  | none =>
    let remainInit : Option ℚ :=
      match s.soc_calc with
      | none =>
        match s.soc with
        | some socv => some (s.capacity * socv / 100)
        | none => some s.capacity
      | some sc =>
        match s.soc with
        | none => none
        | some socv => some (if socv > 0 then s.capacity * sc / 100 else 0)
    match remainInit with
    | none => none
    | some r =>
      some { s with
        current_corrected := 0
        soc_calc_capacity_remain := some r
        soc_calc_capacity_remain_lasttime := t
        soc_calc := some (roundTo 2 (max (min (r / s.capacity * 100) 100) 0)) }

/-- Mathlib's `round` is monotone (via `round x = ⌊x + 1/2⌋`). -/
lemma round_mono_rat {x y : ℚ} (h : x ≤ y) : round x ≤ round y := by
  rw [round_eq, round_eq]
  exact Int.floor_le_floor (by linarith)

lemma roundTo_nonneg (n : ℕ) {x : ℚ} (h : 0 ≤ x) : 0 ≤ roundTo n x := by
  unfold roundTo
  have h0 : (0 : ℚ) ≤ x * (10 : ℚ) ^ n := mul_nonneg h (by positivity)
  have h1 : (0 : ℤ) ≤ round (x * (10 : ℚ) ^ n) := by
    have := round_mono_rat h0
    simpa using this
  have h2 : (0 : ℚ) ≤ ((round (x * (10 : ℚ) ^ n) : ℤ) : ℚ) := by exact_mod_cast h1
  positivity

lemma roundTo2_le_100 {x : ℚ} (h : x ≤ 100) : roundTo 2 x ≤ 100 := by
  unfold roundTo
  have h0 : x * (10 : ℚ) ^ 2 ≤ ((10000 : ℤ) : ℚ) := by push_cast; nlinarith
  have h1 : round (x * (10 : ℚ) ^ 2) ≤ round (((10000 : ℤ) : ℚ)) := round_mono_rat h0
  rw [round_intCast] at h1
  have h2 : ((round (x * (10 : ℚ) ^ 2) : ℤ) : ℚ) ≤ 10000 := by exact_mod_cast h1
  rw [div_le_iff₀ (by norm_num)]
  norm_num at h2 ⊢
  linarith

/-- The percentage emitted by `soc_calculation` is always in `[0, 100]`:
it is `round(max(min(·, 100), 0), 2)` of something. -/
lemma soc_percent_bounds (y : ℚ) :
    0 ≤ roundTo 2 (max (min y 100) 0) ∧ roundTo 2 (max (min y 100) 0) ≤ 100 := by
  constructor
  · exact roundTo_nonneg 2 (le_max_right _ _)
  · exact roundTo2_le_100 (max_le (le_trans (min_le_right _ _) le_rfl) (by norm_num))

/-- A concrete configuration with the documented default tunables, used
for the concrete evaluations below. -/
def baseCfg : Config :=
  { MIN_CELL_VOLTAGE := 2.9
    MAX_CELL_VOLTAGE := 3.45
    FLOAT_CELL_VOLTAGE := 3.375
    SOC_RESET_VOLTAGE := 3.65
    SOC_RESET_CURRENT := 5
    SOC_RESET_TIME := 60
    VOLTAGE_DROP := 0.1
    MAX_VOLTAGE_TIME_SEC := 900
    SOC_LEVEL_TO_RESET_VOLTAGE_LIMIT := 90
    CELL_VOLTAGE_DIFF_KEEP_MAX_VOLTAGE_UNTIL := 0.01
    CELL_VOLTAGE_DIFF_KEEP_MAX_VOLTAGE_TIME_RESTART := 0.05
    CELL_VOLTAGE_DIFF_TO_RESET_VOLTAGE_LIMIT := 0.1
    LINEAR_RECALCULATION_EVERY := 60
    LINEAR_RECALCULATION_ON_PERC_CHANGE := 5
    CVL_ICONTROLLER_MODE := false
    CVL_ICONTROLLER_FACTOR := 0.3
    MAX_BATTERY_CHARGE_CURRENT := 70
    MAX_BATTERY_DISCHARGE_CURRENT := 90
    CCCM_CV_ENABLE := true
    CCCM_T_ENABLE := true
    CCCM_SOC_ENABLE := true
    DCCM_CV_ENABLE := true
    DCCM_T_ENABLE := true
    DCCM_SOC_ENABLE := true }

/-- A near-full pack discharging hard: four cells at 3.44 V (above
`0.99 × MAX_CELL_VOLTAGE`), pack sum 13.76 V within `VOLTAGE_DROP` of
`max_battery_voltage = 13.8`, dwell timer started at 1000 s, current
−100 A, accumulator at 50 Ah of 100 Ah. -/
def c3State : SocState :=
  { cells := [⟨some (3.44 : ℚ), some false⟩, ⟨some (3.44 : ℚ), some false⟩,
              ⟨some (3.44 : ℚ), some false⟩, ⟨some (3.44 : ℚ), some false⟩]
    cell_count := 4
    cell_min_voltage := none
    current := -100
    soc := some 90
    soc_calc := some 50
    capacity := 100
    max_battery_voltage := 13.8
    soc_calc_capacity_remain := some 50
    soc_calc_capacity_remain_lasttime := 2000
    soc_calc_reset_starttime := some 1000
    current_corrected := 0 }

/-- C3, counterexample to the claim as stated: the claim requires
`|current| < SOC_RESET_CURRENT` for the full-endpoint snap, but the
source tests `self.current < utils.SOC_RESET_CURRENT` on the signed
current.  At a state discharging at 100 A (`current = −100`, so
`|current| = 100 ≥ SOC_RESET_CURRENT = 5`) with all other snap clauses
holding and a dwell of 1000 s > SOC_RESET_TIME = 60 s, the code still
snaps the accumulator to `capacity` (= 100 Ah). -/
theorem C3_counterexample :
    ((soc_calculation baseCfg id 2000 c3State).map
        fun u => u.soc_calc_capacity_remain) = some (some 100) ∧
    ¬ |c3State.current| < baseCfg.SOC_RESET_CURRENT := by
  constructor
  · norm_num [soc_calculation, c3State, baseCfg, cell_voltage_sum,
      get_min_cell_voltage, intTruthy, List.filterMap_cons]
  · norm_num [c3State, baseCfg]

/-- Evaluation rule for `round` on rationals, for concrete computations. -/
lemma round_rat_eq (q : ℚ) (z : ℤ) (h1 : (z : ℚ) ≤ q + 1/2) (h2 : q + 1/2 < z + 1) :
    round q = z := by
  rw [round_eq]
  exact Int.floor_eq_iff.mpr ⟨h1, h2⟩

/-- Evaluation rule for `roundTo` on rationals, for concrete computations. -/
lemma roundTo_eq_of (n : ℕ) (x : ℚ) (z : ℤ) (h1 : (z : ℚ) ≤ x * 10 ^ n + 1/2)
    (h2 : x * 10 ^ n + 1/2 < z + 1) : roundTo n x = z / 10 ^ n := by
  unfold roundTo
  rw [round_rat_eq (x * 10 ^ n) z h1 h2]

/-- C3 (amended): in `soc_calculation`, under the near-full gate
(`min_cell_voltage > 0.99 × MAX_CELL_VOLTAGE`, and outside the near-empty
gate), the full-endpoint snap fires exactly when the signed current
satisfies `current < SOC_RESET_CURRENT` (not `|current|`), the pack
voltage sum is at least `max_battery_voltage − VOLTAGE_DROP`, the dwell
start time is truthy, the dwell `int(now) − start` strictly exceeds
`SOC_RESET_TIME`, and the (clamped, accumulated) remainder differs from
`capacity`; firing sets the remainder to `capacity`.  The dwell start is
reset to `int(now)` exactly when the current/voltage/truthy conjunction
fails (a failing dwell-length or remainder clause does not reset it). -/
theorem C3_full_snap_exact (cfg : Config) (corr : ℚ → ℚ) (t : ℚ) (s : SocState) (r0 mv : ℚ)
    (hr : s.soc_calc_capacity_remain = some r0)
    (hmv : get_min_cell_voltage s.cells s.cell_min_voltage = some mv)
    (hfull : mv > cfg.MAX_CELL_VOLTAGE * (0.99 : ℚ))
    (hne : ¬ mv < cfg.MIN_CELL_VOLTAGE * (1.01 : ℚ)) :
    (soc_calculation cfg corr t s).map
        (fun u => (u.soc_calc_capacity_remain, u.soc_calc_reset_starttime)) =
      some
        (some
          (if (s.current < cfg.SOC_RESET_CURRENT ∧
                s.max_battery_voltage - cfg.VOLTAGE_DROP ≤
                  cell_voltage_sum s.cells s.cell_count ∧
                intTruthy s.soc_calc_reset_starttime = true) ∧
              ⌊t⌋ - s.soc_calc_reset_starttime.getD 0 > cfg.SOC_RESET_TIME ∧
              max (min (r0 + roundTo 2 (corr s.current) *
                  (t - s.soc_calc_capacity_remain_lasttime) / 3600) s.capacity) 0 ≠
                s.capacity
            then s.capacity
            else max (min (r0 + roundTo 2 (corr s.current) *
                (t - s.soc_calc_capacity_remain_lasttime) / 3600) s.capacity) 0),
         if s.current < cfg.SOC_RESET_CURRENT ∧
              s.max_battery_voltage - cfg.VOLTAGE_DROP ≤
                cell_voltage_sum s.cells s.cell_count ∧
              intTruthy s.soc_calc_reset_starttime = true
            then s.soc_calc_reset_starttime
            else some ⌊t⌋) := by
  simp only [soc_calculation, hr, hmv, Option.map_some', Option.some_inj, Prod.mk.injEq]
  rw [if_pos hfull, if_neg hne]
  split_ifs <;> first | exact ⟨rfl, rfl⟩ | tauto

/-- C3, witness: the amended theorem applied at `c3State` (dwell of
1000 s, signed current −100 A, all amended clauses holding), where the
snap fires and the dwell start survives. -/
theorem C3_full_snap_exact_witness :
    c3State.soc_calc_capacity_remain = some 50 ∧
    get_min_cell_voltage c3State.cells c3State.cell_min_voltage = some (3.44 : ℚ) ∧
    (3.44 : ℚ) > baseCfg.MAX_CELL_VOLTAGE * (0.99 : ℚ) ∧
    ¬ (3.44 : ℚ) < baseCfg.MIN_CELL_VOLTAGE * (1.01 : ℚ) ∧
    (soc_calculation baseCfg id 2000 c3State).map
        (fun u => (u.soc_calc_capacity_remain, u.soc_calc_reset_starttime)) =
      some
        (some
          (if (c3State.current < baseCfg.SOC_RESET_CURRENT ∧
                c3State.max_battery_voltage - baseCfg.VOLTAGE_DROP ≤
                  cell_voltage_sum c3State.cells c3State.cell_count ∧
                intTruthy c3State.soc_calc_reset_starttime = true) ∧
              ⌊(2000 : ℚ)⌋ - c3State.soc_calc_reset_starttime.getD 0 > baseCfg.SOC_RESET_TIME ∧
              max (min (50 + roundTo 2 (id c3State.current) *
                  (2000 - c3State.soc_calc_capacity_remain_lasttime) / 3600) c3State.capacity) 0 ≠
                c3State.capacity
            then c3State.capacity
            else max (min (50 + roundTo 2 (id c3State.current) *
                (2000 - c3State.soc_calc_capacity_remain_lasttime) / 3600) c3State.capacity) 0),
         if c3State.current < baseCfg.SOC_RESET_CURRENT ∧
              c3State.max_battery_voltage - baseCfg.VOLTAGE_DROP ≤
                cell_voltage_sum c3State.cells c3State.cell_count ∧
              intTruthy c3State.soc_calc_reset_starttime = true
            then c3State.soc_calc_reset_starttime
            else some ⌊(2000 : ℚ)⌋) :=
  ⟨rfl,
   by norm_num [get_min_cell_voltage, c3State, List.filterMap_cons],
   by norm_num [baseCfg],
   by norm_num [baseCfg],
   C3_full_snap_exact baseCfg id 2000 c3State 50 (3.44 : ℚ) rfl
     (by norm_num [get_min_cell_voltage, c3State, List.filterMap_cons])
     (by norm_num [baseCfg])
     (by norm_num [baseCfg])⟩

/-- A state whose BMS-reported SoC is out of range (150 %) when the
coulomb accumulator must be initialized from it. -/
def c5State : SocState :=
  { cells := []
    cell_count := 0
    cell_min_voltage := none
    current := 0
    soc := some 150
    soc_calc := none
    capacity := 100
    max_battery_voltage := 13.8
    soc_calc_capacity_remain := none
    soc_calc_capacity_remain_lasttime := 0
    soc_calc_reset_starttime := none
    current_corrected := 0 }

/-- C5, counterexample to the claim as stated: quantified over *every*
state with positive capacity, the invariant fails.  At `c5State`
(`capacity = 100 > 0`, accumulator unset, BMS-reported `soc = 150`),
`soc_calculation` initializes the accumulator to
`capacity × soc / 100 = 150 > capacity` without clamping. -/
theorem C5_counterexample :
    0 < c5State.capacity ∧
    ((soc_calculation baseCfg id 0 c5State).map
        fun u => (u.soc_calc_capacity_remain, u.capacity)) = some (some 150, 100) ∧
    ¬ (150 : ℚ) ≤ 100 := by
  refine ⟨by norm_num [c5State], ?_, by norm_num⟩
  norm_num [soc_calculation, c5State]

/-- C5 (amended): for every state with positive `capacity` whose
BMS-reported `soc` and persisted `soc_calc` (each when present) lie in
`[0, 100]`, a completed `soc_calculation` call leaves
`0 ≤ soc_calc ≤ 100` and `0 ≤ soc_calc_capacity_remain ≤ capacity`. -/
theorem C5_soc_invariant (cfg : Config) (corr : ℚ → ℚ) (t : ℚ) (s s' : SocState)
    (hcap : 0 < s.capacity)
    (hsoc : s.soc.all (fun v => decide ((0 : ℚ) ≤ v) && decide (v ≤ 100)) = true)
    (hsc : s.soc_calc.all (fun v => decide ((0 : ℚ) ≤ v) && decide (v ≤ 100)) = true)
    (hrun : soc_calculation cfg corr t s = some s') :
    (∃ sc, s'.soc_calc = some sc ∧ 0 ≤ sc ∧ sc ≤ 100) ∧
    (∃ r, s'.soc_calc_capacity_remain = some r ∧ 0 ≤ r ∧ r ≤ s'.capacity) := by
  have hcap' : (0 : ℚ) ≤ s.capacity := le_of_lt hcap
  simp only [soc_calculation] at hrun
  cases hacc : s.soc_calc_capacity_remain with
  | some r0 =>
    rw [hacc] at hrun
    cases hcmv : get_min_cell_voltage s.cells s.cell_min_voltage with
    | none => rw [hcmv] at hrun; exact absurd hrun (by simp)
    | some mv =>
      rw [hcmv] at hrun
      simp only [Option.some_inj] at hrun
      subst hrun
      have h2a : (0 : ℚ) ≤ max (min (r0 + roundTo 2 (corr s.current) *
          (t - s.soc_calc_capacity_remain_lasttime) / 3600) s.capacity) 0 :=
        le_max_right _ _
      have h2b : max (min (r0 + roundTo 2 (corr s.current) *
          (t - s.soc_calc_capacity_remain_lasttime) / 3600) s.capacity) 0 ≤ s.capacity :=
        max_le (min_le_right _ _) hcap'
      refine ⟨⟨_, rfl, (soc_percent_bounds _).1, (soc_percent_bounds _).2⟩,
        ⟨_, rfl, ?_, ?_⟩⟩
      · split_ifs <;> first | exact h2a | exact hcap' | exact le_refl _
      · split_ifs <;> first | exact h2b | exact hcap' | exact le_refl _
  | none =>
    rw [hacc] at hrun
    cases hsc0 : s.soc_calc with
    | none =>
      rw [hsc0] at hrun
      cases hsoc0 : s.soc with
      | none =>
        rw [hsoc0] at hrun
        simp only [Option.some_inj] at hrun
        subst hrun
        exact ⟨⟨_, rfl, (soc_percent_bounds _).1, (soc_percent_bounds _).2⟩,
          ⟨_, rfl, hcap', le_refl _⟩⟩
      | some socv =>
        rw [hsoc0] at hrun
        rw [hsoc0] at hsoc
        simp only [Option.all_some, Bool.and_eq_true, decide_eq_true_eq] at hsoc
        simp only [Option.some_inj] at hrun
        subst hrun
        refine ⟨⟨_, rfl, (soc_percent_bounds _).1, (soc_percent_bounds _).2⟩,
          ⟨_, rfl, ?_, ?_⟩⟩
        · show (0 : ℚ) ≤ s.capacity * socv / 100
          exact div_nonneg (mul_nonneg hcap' hsoc.1) (by norm_num)
        · show s.capacity * socv / 100 ≤ s.capacity
          nlinarith [hsoc.1, hsoc.2]
    | some sc0 =>
      rw [hsc0] at hrun
      rw [hsc0] at hsc
      simp only [Option.all_some, Bool.and_eq_true, decide_eq_true_eq] at hsc
      cases hsoc0 : s.soc with
      | none => rw [hsoc0] at hrun; exact absurd hrun (by simp)
      | some socv =>
        rw [hsoc0] at hrun
        simp only [Option.some_inj] at hrun
        subst hrun
        refine ⟨⟨_, rfl, (soc_percent_bounds _).1, (soc_percent_bounds _).2⟩,
          ⟨_, rfl, ?_, ?_⟩⟩
        · split_ifs
          · exact div_nonneg (mul_nonneg hcap' hsc.1) (by norm_num)
          · exact le_refl _
        · split_ifs
          · show s.capacity * sc0 / 100 ≤ s.capacity
            nlinarith [hsc.1, hsc.2]
          · exact hcap'

/-!  Voltage controller: `Battery.manage_charge_voltage_linear`
(claims C2, C6, C7). -/

/-- The fields of `Battery` read or written by
`manage_charge_voltage_linear` (after `prepare_voltage_management` has
set the pack-level targets; those, `soc_calc` and
`initial_control_voltage` are read arithmetically on the verified paths
and are modelled as plain rationals). -/
structure CVLState where
  cells : List Cell
  cell_count : ℕ
  cell_min_voltage : Option ℚ
  cell_max_voltage : Option ℚ
  max_battery_voltage : ℚ
  min_battery_voltage : ℚ
  soc_reset_battery_voltage : ℚ
  soc_reset_requested : Bool
  soc_reset_last_reached : ℤ
  soc_calc : ℚ
  allow_max_voltage : Bool
  max_voltage_start_time : Option ℤ
  transition_start_time : Option ℤ
  initial_control_voltage : ℚ
  control_voltage : Option ℚ
  charge_mode : Option String
  linear_cvl_last_set : ℤ
deriving Repr, DecidableEq

/-- Embedding of `Battery.set_cvl_linear` (battery.py lines 667–677):
commit `control_voltage` only once every `LINEAR_RECALCULATION_EVERY`
seconds (the source also returns a Bool no caller uses). -/
def set_cvl_linear (cfg : Config) (t : ℤ) (s : CVLState) (cv : ℚ) : CVLState :=
  if cfg.LINEAR_RECALCULATION_EVERY ≤ t - s.linear_cvl_last_set then
    { s with control_voltage := some cv, linear_cvl_last_set := t }
  else s

/-- One iteration of the first loop of `manage_charge_voltage_linear`
(battery.py lines 420–439): accumulate `(voltage_sum,
found_high_cell_voltage, penalty_sum)`; Python-falsy voltages are
skipped.  The per-cell ceiling is `MAX_CELL_VOLTAGE` when
`max_battery_voltage ≠ soc_reset_battery_voltage`, else
`SOC_RESET_VOLTAGE`. -/
def penalty_step (cfg : Config) (max_battery_voltage soc_reset_battery_voltage : ℚ)
    (acc : ℚ × Bool × ℚ) (c : Cell) : ℚ × Bool × ℚ :=
  match c.voltage with
  | some v =>
    if v ≠ 0 then
      if ¬ max_battery_voltage = soc_reset_battery_voltage ∧ v > cfg.MAX_CELL_VOLTAGE then
        (acc.1 + v, true, acc.2.2 + (v - cfg.MAX_CELL_VOLTAGE))
      else if max_battery_voltage = soc_reset_battery_voltage ∧ v > cfg.SOC_RESET_VOLTAGE then
        (acc.1 + v, true, acc.2.2 + (v - cfg.SOC_RESET_VOLTAGE))
      else (acc.1 + v, acc.2.1, acc.2.2)
    else acc
  | none => acc

/-- The first loop of `manage_charge_voltage_linear`, folded over the
cells the index loop visits (the first `min(len(cells), cell_count)`). -/
def penalty_loop (cfg : Config) (max_battery_voltage soc_reset_battery_voltage : ℚ)
    (cells : List Cell) (cell_count : ℕ) : ℚ × Bool × ℚ :=
  (cells.take cell_count).foldl
    (penalty_step cfg max_battery_voltage soc_reset_battery_voltage) (0, false, 0)

/-- The Absorption-timer block of `manage_charge_voltage_linear`
(battery.py lines 443–485): start, restart, expire or clear
`max_voltage_start_time`; re-arm or clear `allow_max_voltage`
(`measurement_tolerance_variation = 0.5`). -/
def cvl_timer_update (cfg : Config) (t : ℤ) (voltage_sum voltageDiff : ℚ)
    (s : CVLState) : CVLState :=
  match s.max_voltage_start_time with
  | none =>
    if s.max_battery_voltage ≤ voltage_sum ∧
        voltageDiff ≤ cfg.CELL_VOLTAGE_DIFF_KEEP_MAX_VOLTAGE_UNTIL ∧
        s.allow_max_voltage then
      { s with max_voltage_start_time := some t }
    else if (cfg.SOC_LEVEL_TO_RESET_VOLTAGE_LIMIT > s.soc_calc ∨
        voltageDiff ≥ cfg.CELL_VOLTAGE_DIFF_TO_RESET_VOLTAGE_LIMIT) ∧
        ¬ s.allow_max_voltage then
      { s with allow_max_voltage := true }
    else s
  | some _ =>
    let s1 := if voltageDiff > cfg.CELL_VOLTAGE_DIFF_KEEP_MAX_VOLTAGE_TIME_RESTART then
        { s with max_voltage_start_time := some t } else s
    let time_diff := t - s1.max_voltage_start_time.getD 0
    let s2 := if cfg.MAX_VOLTAGE_TIME_SEC < time_diff then
        { s1 with allow_max_voltage := false, max_voltage_start_time := none } else s1
    if voltage_sum < s.max_battery_voltage - (0.5 : ℚ) then
      { s2 with max_voltage_start_time := none }
    else s2

/-- The `CVL_ICONTROLLER_MODE` computation of the local `control_voltage`
variable (battery.py lines 487–507); `0` when the mode is disabled (the
local is initialized to `0`). -/
def icontroller_value (cfg : Config) (mx : ℚ) (s : CVLState) : ℚ :=
  if cfg.CVL_ICONTROLLER_MODE then
    let cv0 :=
      if ratTruthy s.control_voltage then
        s.control_voltage.getD 0 -
          ((mx - (if s.soc_reset_requested then cfg.SOC_RESET_VOLTAGE
                  else cfg.MAX_CELL_VOLTAGE) -
            cfg.CELL_VOLTAGE_DIFF_KEEP_MAX_VOLTAGE_UNTIL) * cfg.CVL_ICONTROLLER_FACTOR)
      else s.max_battery_voltage
    min (max cv0 s.min_battery_voltage) s.max_battery_voltage
  else 0

/-- The common tail of `manage_charge_voltage_linear` (battery.py lines
586–593): assign `charge_mode` and append the balancing and
"(Linear Mode)" suffixes.  The debug block (lines 595–661) only builds
`charge_mode_debug` and is omitted. -/
def mcvl_finish (cfg : Config) (s : CVLState) (voltageDiff : ℚ) (mode : String) : CVLState :=
  let mode1 := if s.allow_max_voltage ∧ get_balancing s.cells s.cell_count ∧
      voltageDiff ≥ cfg.CELL_VOLTAGE_DIFF_TO_RESET_VOLTAGE_LIMIT
    then mode ++ labelBalancing else mode
  { s with charge_mode := some (mode1 ++ labelLinearMode) }

/-- The body of `manage_charge_voltage_linear` inside its `try:`
(battery.py lines 418–661).  A `.error` result is a raised `TypeError`
carrying the object state as mutated so far; `trigger_soc_reset` is the
base-class no-op. -/
def mcvl_body (cfg : Config) (t : ℤ) (s : CVLState) : Except CVLState CVLState :=
  let pl := penalty_loop cfg s.max_battery_voltage s.soc_reset_battery_voltage
      s.cells s.cell_count
  let voltage_sum := pl.1
  let found_high_cell_voltage := pl.2.1
  let penalty_sum := pl.2.2
  match get_max_cell_voltage s.cells s.cell_max_voltage,
        get_min_cell_voltage s.cells s.cell_min_voltage with
  | some mx, some mn =>
    let voltageDiff := mx - mn
    let s1 := cvl_timer_update cfg t voltage_sum voltageDiff s
    let icv := icontroller_value cfg mx s1
    if found_high_cell_voltage ∧ s1.allow_max_voltage then
      let cv := roundTo 3 (min (max (voltage_sum - penalty_sum) s1.min_battery_voltage)
          s1.max_battery_voltage)
      let s2 := if cfg.CVL_ICONTROLLER_MODE then { s1 with control_voltage := some cv }
        else set_cvl_linear cfg t s1 cv
      let mode0 := if s2.max_voltage_start_time = none then labelBulkDynamic
        else labelAbsorptionDynamic
      let mode1 := if s2.max_battery_voltage = s2.soc_reset_battery_voltage then
          mode0 ++ labelSocReset else mode0
      .ok (mcvl_finish cfg s2 voltageDiff mode1)
    else if s1.allow_max_voltage then
      let s2 := if cfg.CVL_ICONTROLLER_MODE then { s1 with control_voltage := some icv }
        else { s1 with control_voltage := some (roundTo 3 s1.max_battery_voltage) }
      let mode0 := if s2.max_voltage_start_time = none then labelBulk else labelAbsorption
      let mode1 := if s2.max_battery_voltage = s2.soc_reset_battery_voltage then
          mode0 ++ labelSocReset else mode0
      .ok (mcvl_finish cfg s2 voltageDiff mode1)
    else
      let floatVoltage := roundTo 3 (cfg.FLOAT_CELL_VOLTAGE * (s1.cell_count : ℚ))
      let s2 := if s1.soc_reset_requested then
          { s1 with soc_reset_requested := false, soc_reset_last_reached := t } else s1
      if ratTruthy s2.control_voltage then
        match s2.charge_mode with
        | none => .error s2
        | some cm =>
          if ¬ pyStartsWith cm labelFloat then
            let s3 := { s2 with transition_start_time := some t,
                                initial_control_voltage := s2.control_voltage.getD 0 }
            .ok (mcvl_finish cfg s3 voltageDiff labelFloatTransition)
          else if pyStartsWith cm labelFloatTransition then
            match s2.transition_start_time with
            | none => .error s2
            | some ts =>
              let elapsed_time := t - ts
              let voltage_reduction := min ((0.01 : ℚ) / 10 * (elapsed_time : ℚ))
                  (s2.initial_control_voltage - floatVoltage)
              let s3 := set_cvl_linear cfg t s2
                  (s2.initial_control_voltage - voltage_reduction)
              match s3.control_voltage with
              | none => .error s3
              | some cvNew =>
                if cvNew ≤ floatVoltage then
                  .ok (mcvl_finish cfg { s3 with control_voltage := some floatVoltage }
                    voltageDiff labelFloat)
                else
                  .ok (mcvl_finish cfg s3 voltageDiff labelFloatTransition)
          else .ok (mcvl_finish cfg s2 voltageDiff labelFloat)
      else
        .ok (mcvl_finish cfg { s2 with control_voltage := some floatVoltage }
          voltageDiff labelFloat)
  | _, _ => .error s

/-- Embedding of `Battery.manage_charge_voltage_linear` (battery.py lines
403–665): the `try:` body, with the `except TypeError:` handler clearing
`control_voltage` and setting `charge_mode = "--"` on the state as
mutated so far. -/
def manage_charge_voltage_linear (cfg : Config) (t : ℤ) (s : CVLState) : CVLState :=
  match mcvl_body cfg t s with
  | .ok s' => s'
  | .error sp => { sp with control_voltage := none, charge_mode := some labelDashes }

/-- The timer block only ever touches `allow_max_voltage` and
`max_voltage_start_time`. -/
lemma cvl_timer_update_shape (cfg : Config) (t : ℤ) (vs vd : ℚ) (s : CVLState) :
    ∃ a m, cvl_timer_update cfg t vs vd s =
      { s with allow_max_voltage := a, max_voltage_start_time := m } := by
  unfold cvl_timer_update
  cases s.max_voltage_start_time <;> dsimp only <;> split_ifs <;> exact ⟨_, _, rfl⟩

/-- While the Absorption timer is running and has not expired (and the
expiry bound is nonnegative, so a same-tick restart cannot expire
either), the timer block keeps `allow_max_voltage` true. -/
lemma cvl_timer_update_allow_of_running (cfg : Config) (t t0 : ℤ) (vs vd : ℚ)
    (s : CVLState)
    (hmvst : s.max_voltage_start_time = some t0)
    (hallow : s.allow_max_voltage = true)
    (ht : t - t0 ≤ cfg.MAX_VOLTAGE_TIME_SEC)
    (ht0 : 0 ≤ cfg.MAX_VOLTAGE_TIME_SEC) :
    (cvl_timer_update cfg t vs vd s).allow_max_voltage = true := by
  unfold cvl_timer_update
  rw [hmvst]
  dsimp only
  split_ifs with h1 h2 h3 <;> simp_all <;> omega

/-- When the throttle window is open, `set_cvl_linear` commits. -/
lemma set_cvl_linear_commits (cfg : Config) (t : ℤ) (s : CVLState) (cv : ℚ)
    (h : cfg.LINEAR_RECALCULATION_EVERY ≤ t - s.linear_cvl_last_set) :
    set_cvl_linear cfg t s cv =
      { s with control_voltage := some cv, linear_cvl_last_set := t } := by
  unfold set_cvl_linear
  rw [if_pos h]

/-- The mode-suffix tail does not touch `control_voltage`. -/
lemma mcvl_finish_control_voltage (cfg : Config) (s : CVLState) (vd : ℚ) (m : String) :
    (mcvl_finish cfg s vd m).control_voltage = s.control_voltage := rfl

/-- With `allow_max_voltage` false the balancing suffix is not appended. -/
lemma mcvl_finish_charge_mode_of_not_allow (cfg : Config) (s : CVLState) (vd : ℚ)
    (m : String) (h : s.allow_max_voltage = false) :
    (mcvl_finish cfg s vd m).charge_mode = some (m ++ labelLinearMode) := by
  unfold mcvl_finish
  rw [if_neg]
  simp [h]

/-- Shared workhorse for C2 and C6: with the I-controller disabled, a
high cell found by the penalty loop, `allow_max_voltage` true after the
timer block, and the commit throttle open,
`manage_charge_voltage_linear` commits
`round(clamp(voltage_sum − penalty_sum, min_battery_voltage,
max_battery_voltage), 3)`. -/
lemma mcvl_penalty_commit (cfg : Config) (t : ℤ) (s : CVLState) (mx mn : ℚ)
    (hic : cfg.CVL_ICONTROLLER_MODE = false)
    (hmx : get_max_cell_voltage s.cells s.cell_max_voltage = some mx)
    (hmn : get_min_cell_voltage s.cells s.cell_min_voltage = some mn)
    (hfh : (penalty_loop cfg s.max_battery_voltage s.soc_reset_battery_voltage
        s.cells s.cell_count).2.1 = true)
    (hallow : (cvl_timer_update cfg t
        (penalty_loop cfg s.max_battery_voltage s.soc_reset_battery_voltage
          s.cells s.cell_count).1 (mx - mn) s).allow_max_voltage = true)
    (hthrottle : cfg.LINEAR_RECALCULATION_EVERY ≤ t - s.linear_cvl_last_set) :
    (manage_charge_voltage_linear cfg t s).control_voltage =
      some (roundTo 3 (min (max
        ((penalty_loop cfg s.max_battery_voltage s.soc_reset_battery_voltage
            s.cells s.cell_count).1 -
          (penalty_loop cfg s.max_battery_voltage s.soc_reset_battery_voltage
            s.cells s.cell_count).2.2)
        s.min_battery_voltage) s.max_battery_voltage)) := by
  obtain ⟨a, m, hshape⟩ := cvl_timer_update_shape cfg t
    (penalty_loop cfg s.max_battery_voltage s.soc_reset_battery_voltage
      s.cells s.cell_count).1 (mx - mn) s
  unfold manage_charge_voltage_linear mcvl_body
  rw [hmx, hmn]
  dsimp only
  rw [if_pos ⟨hfh, hallow⟩, if_neg (by rw [hic]; exact Bool.false_ne_true)]
  rw [mcvl_finish_control_voltage]
  rw [hshape]
  rw [set_cvl_linear_commits cfg t _ _ (by dsimp only; exact hthrottle)]

/-- C6: in linear mode with the I-controller disabled, when the penalty
loop finds a cell above the active per-cell ceiling
(`found_high_cell_voltage`), `allow_max_voltage` holds after the
Absorption-timer block, and the `LINEAR_RECALCULATION_EVERY` commit
throttle is open, the CVL committed by `manage_charge_voltage_linear` is
`round(clamp(voltage_sum − penalty_sum, min_battery_voltage,
max_battery_voltage), 3)`, the penalty sum being the total overshoot of
all cells above the ceiling. -/
theorem C6_dynamic_cvl (cfg : Config) (t : ℤ) (s : CVLState) (mx mn : ℚ)
    (hic : cfg.CVL_ICONTROLLER_MODE = false)
    (hmx : get_max_cell_voltage s.cells s.cell_max_voltage = some mx)
    (hmn : get_min_cell_voltage s.cells s.cell_min_voltage = some mn)
    (hfh : (penalty_loop cfg s.max_battery_voltage s.soc_reset_battery_voltage
        s.cells s.cell_count).2.1 = true)
    (hallow : (cvl_timer_update cfg t
        (penalty_loop cfg s.max_battery_voltage s.soc_reset_battery_voltage
          s.cells s.cell_count).1 (mx - mn) s).allow_max_voltage = true)
    (hthrottle : cfg.LINEAR_RECALCULATION_EVERY ≤ t - s.linear_cvl_last_set) :
    (manage_charge_voltage_linear cfg t s).control_voltage =
      some (roundTo 3 (min (max
        ((penalty_loop cfg s.max_battery_voltage s.soc_reset_battery_voltage
            s.cells s.cell_count).1 -
          (penalty_loop cfg s.max_battery_voltage s.soc_reset_battery_voltage
            s.cells s.cell_count).2.2)
        s.min_battery_voltage) s.max_battery_voltage)) :=
  mcvl_penalty_commit cfg t s mx mn hic hmx hmn hfh hallow hthrottle

/-- An Absorption-dynamic state: one cell at 3.50 V above the 3.45 V
ceiling, the other three at 3.44 V, timer running since 0 s, throttle
last committed at 0 s, evaluated at t = 100 s. -/
def c6State : CVLState :=
  { cells := [⟨some (3.5 : ℚ), some false⟩, ⟨some (3.44 : ℚ), some false⟩,
              ⟨some (3.44 : ℚ), some false⟩, ⟨some (3.44 : ℚ), some false⟩]
    cell_count := 4
    cell_min_voltage := none
    cell_max_voltage := none
    max_battery_voltage := 13.8
    min_battery_voltage := 11.6
    soc_reset_battery_voltage := 14.6
    soc_reset_requested := false
    soc_reset_last_reached := 0
    soc_calc := 80
    allow_max_voltage := true
    max_voltage_start_time := some 0
    transition_start_time := none
    initial_control_voltage := 0
    control_voltage := some (13.8 : ℚ)
    charge_mode := some (labelAbsorption ++ labelLinearMode)
    linear_cvl_last_set := 0 }

/-- C6, witness: the theorem applied at `c6State`. -/
theorem C6_dynamic_cvl_witness :
    baseCfg.CVL_ICONTROLLER_MODE = false ∧
    get_max_cell_voltage c6State.cells c6State.cell_max_voltage = some (3.5 : ℚ) ∧
    get_min_cell_voltage c6State.cells c6State.cell_min_voltage = some (3.44 : ℚ) ∧
    (penalty_loop baseCfg c6State.max_battery_voltage c6State.soc_reset_battery_voltage
        c6State.cells c6State.cell_count).2.1 = true ∧
    (cvl_timer_update baseCfg 100
        (penalty_loop baseCfg c6State.max_battery_voltage c6State.soc_reset_battery_voltage
          c6State.cells c6State.cell_count).1 ((3.5 : ℚ) - (3.44 : ℚ))
        c6State).allow_max_voltage = true ∧
    baseCfg.LINEAR_RECALCULATION_EVERY ≤ 100 - c6State.linear_cvl_last_set ∧
    (manage_charge_voltage_linear baseCfg 100 c6State).control_voltage =
      some (roundTo 3 (min (max
        ((penalty_loop baseCfg c6State.max_battery_voltage c6State.soc_reset_battery_voltage
            c6State.cells c6State.cell_count).1 -
          (penalty_loop baseCfg c6State.max_battery_voltage c6State.soc_reset_battery_voltage
            c6State.cells c6State.cell_count).2.2)
        c6State.min_battery_voltage) c6State.max_battery_voltage)) :=
  ⟨rfl,
   by norm_num [get_max_cell_voltage, c6State, List.filterMap_cons],
   by norm_num [get_min_cell_voltage, c6State, List.filterMap_cons],
   by norm_num [penalty_loop, penalty_step, c6State, baseCfg],
   by norm_num [cvl_timer_update, penalty_loop, penalty_step, c6State, baseCfg],
   by norm_num [c6State, baseCfg],
   C6_dynamic_cvl baseCfg 100 c6State (3.5 : ℚ) (3.44 : ℚ) rfl
     (by norm_num [get_max_cell_voltage, c6State, List.filterMap_cons])
     (by norm_num [get_min_cell_voltage, c6State, List.filterMap_cons])
     (by norm_num [penalty_loop, penalty_step, c6State, baseCfg])
     (by norm_num [cvl_timer_update, penalty_loop, penalty_step, c6State, baseCfg])
     (by norm_num [c6State, baseCfg])⟩

/-- One penalty step acts additively on the sum and penalty components
and disjunctively on the found-high flag. -/
lemma penalty_step_shift (cfg : Config) (mbv srbv : ℚ) (acc : ℚ × Bool × ℚ) (c : Cell) :
    penalty_step cfg mbv srbv acc c =
      (acc.1 + (penalty_step cfg mbv srbv (0, false, 0) c).1,
       acc.2.1 || (penalty_step cfg mbv srbv (0, false, 0) c).2.1,
       acc.2.2 + (penalty_step cfg mbv srbv (0, false, 0) c).2.2) := by
  rcases c with ⟨v, b⟩
  cases v with
  | none => simp [penalty_step]
  | some x =>
    by_cases hx : x = 0
    · simp [penalty_step, hx]
    · simp only [penalty_step, hx, ne_eq, not_false_eq_true, if_true]
      split_ifs <;> simp

/-- The penalty fold from an arbitrary accumulator decomposes through the
fold from the zero accumulator. -/
lemma penalty_foldl_shift (cfg : Config) (mbv srbv : ℚ) (l : List Cell)
    (acc : ℚ × Bool × ℚ) :
    l.foldl (penalty_step cfg mbv srbv) acc =
      (acc.1 + (l.foldl (penalty_step cfg mbv srbv) (0, false, 0)).1,
       acc.2.1 || (l.foldl (penalty_step cfg mbv srbv) (0, false, 0)).2.1,
       acc.2.2 + (l.foldl (penalty_step cfg mbv srbv) (0, false, 0)).2.2) := by
  induction l generalizing acc with
  | nil => simp
  | cons c cs ih =>
    rw [List.foldl_cons, List.foldl_cons]
    rw [ih (penalty_step cfg mbv srbv acc c)]
    rw [ih (penalty_step cfg mbv srbv (0, false, 0) c)]
    rw [penalty_step_shift cfg mbv srbv acc c]
    simp [add_assoc, Bool.or_assoc]

/-- Splitting the penalty loop at a designated cell strictly above the
`MAX_CELL_VOLTAGE` ceiling (active because `max_battery_voltage ≠
soc_reset_battery_voltage`): the sum gains `v`, the penalty gains
`v − MAX_CELL_VOLTAGE`, and the found-high flag is set. -/
lemma penalty_loop_insert_high (cfg : Config) (mbv srbv : ℚ) (pre post : List Cell)
    (b : Option Bool) (v : ℚ)
    (hne : ¬ mbv = srbv) (hv : v > cfg.MAX_CELL_VOLTAGE) (hv0 : v ≠ 0) :
    penalty_loop cfg mbv srbv (pre ++ ⟨some v, b⟩ :: post)
        (pre ++ ⟨some v, b⟩ :: post).length =
      ((penalty_loop cfg mbv srbv pre pre.length).1 + v +
         (penalty_loop cfg mbv srbv post post.length).1,
       true,
       (penalty_loop cfg mbv srbv pre pre.length).2.2 + (v - cfg.MAX_CELL_VOLTAGE) +
         (penalty_loop cfg mbv srbv post post.length).2.2) := by
  unfold penalty_loop
  simp only [List.take_length, List.foldl_append, List.foldl_cons]
  rw [show penalty_step cfg mbv srbv
      (pre.foldl (penalty_step cfg mbv srbv) (0, false, 0)) ⟨some v, b⟩ =
      ((pre.foldl (penalty_step cfg mbv srbv) (0, false, 0)).1 + v, true,
       (pre.foldl (penalty_step cfg mbv srbv) (0, false, 0)).2.2 +
         (v - cfg.MAX_CELL_VOLTAGE)) from by
    simp [penalty_step, hv0, hne, hv]]
  rw [penalty_foldl_shift]
  simp

/-- A cell with a present voltage forces `get_max_cell_voltage` to return
a value. -/
lemma get_max_cell_voltage_isSome (cells : List Cell) (ov : Option ℚ) (v : ℚ)
    (b : Option Bool) (hmem : (⟨some v, b⟩ : Cell) ∈ cells) :
    ∃ m, get_max_cell_voltage cells ov = some m := by
  cases ov with
  | some m => exact ⟨m, rfl⟩
  | none =>
    unfold get_max_cell_voltage
    have hv : v ∈ cells.filterMap Cell.voltage := List.mem_filterMap.mpr ⟨_, hmem, rfl⟩
    cases h : cells.filterMap Cell.voltage with
    | nil => rw [h] at hv; cases hv
    | cons x xs => exact ⟨_, rfl⟩

/-- A cell with a present voltage forces `get_min_cell_voltage` to return
a value. -/
lemma get_min_cell_voltage_isSome (cells : List Cell) (ov : Option ℚ) (v : ℚ)
    (b : Option Bool) (hmem : (⟨some v, b⟩ : Cell) ∈ cells) :
    ∃ m, get_min_cell_voltage cells ov = some m := by
  cases ov with
  | some m => exact ⟨m, rfl⟩
  | none =>
    unfold get_min_cell_voltage
    have hv : v ∈ cells.filterMap Cell.voltage := List.mem_filterMap.mpr ⟨_, hmem, rfl⟩
    cases h : cells.filterMap Cell.voltage with
    | nil => rw [h] at hv; cases hv
    | cons x xs => exact ⟨_, rfl⟩

/-- State builder for C2: the battery of `s` with the designated cell's
voltage set to `v` (cells `pre ++ [cell v] ++ post`, `cell_count` the
full list length). -/
def c2WithHighCell (s : CVLState) (pre post : List Cell) (b : Option Bool) (v : ℚ) :
    CVLState :=
  { s with cells := pre ++ ⟨some v, b⟩ :: post,
           cell_count := (pre ++ ⟨some v, b⟩ :: post).length }

/-- C2 (amended): with `allow_max_voltage` true, the Absorption timer
running (and not expiring), the I-controller disabled, the commit
throttle open, and exactly one designated cell strictly above
`MAX_CELL_VOLTAGE` while all other cells are fixed, the CVL emitted by
`manage_charge_voltage_linear` is *constant* in that cell's voltage: the
penalty exactly cancels the rise of the pack sum.  In particular the CVL
is weakly non-increasing in the cell's voltage, but never strictly
lowered by raising it. -/
theorem C2_penalty_cvl_constant (cfg : Config) (t t0 : ℤ) (s : CVLState)
    (pre post : List Cell) (b : Option Bool) (v1 v2 : ℚ)
    (hic : cfg.CVL_ICONTROLLER_MODE = false)
    (hne : ¬ s.max_battery_voltage = s.soc_reset_battery_voltage)
    (hM : 0 ≤ cfg.MAX_CELL_VOLTAGE)
    (hv1 : v1 > cfg.MAX_CELL_VOLTAGE) (hv2 : v2 > cfg.MAX_CELL_VOLTAGE)
    (hmvst : s.max_voltage_start_time = some t0)
    (hallow : s.allow_max_voltage = true)
    (ht : t - t0 ≤ cfg.MAX_VOLTAGE_TIME_SEC)
    (ht0 : 0 ≤ cfg.MAX_VOLTAGE_TIME_SEC)
    (hthrottle : cfg.LINEAR_RECALCULATION_EVERY ≤ t - s.linear_cvl_last_set) :
    (manage_charge_voltage_linear cfg t
        (c2WithHighCell s pre post b v2)).control_voltage =
      (manage_charge_voltage_linear cfg t
        (c2WithHighCell s pre post b v1)).control_voltage := by
  have hv10 : v1 ≠ 0 := ne_of_gt (lt_of_le_of_lt hM hv1)
  have hv20 : v2 ≠ 0 := ne_of_gt (lt_of_le_of_lt hM hv2)
  have hmem1 : (⟨some v1, b⟩ : Cell) ∈ (c2WithHighCell s pre post b v1).cells := by
    simp [c2WithHighCell]
  have hmem2 : (⟨some v2, b⟩ : Cell) ∈ (c2WithHighCell s pre post b v2).cells := by
    simp [c2WithHighCell]
  obtain ⟨mx1, hmx1⟩ := get_max_cell_voltage_isSome _
    (c2WithHighCell s pre post b v1).cell_max_voltage v1 b hmem1
  obtain ⟨mn1, hmn1⟩ := get_min_cell_voltage_isSome _
    (c2WithHighCell s pre post b v1).cell_min_voltage v1 b hmem1
  obtain ⟨mx2, hmx2⟩ := get_max_cell_voltage_isSome _
    (c2WithHighCell s pre post b v2).cell_max_voltage v2 b hmem2
  obtain ⟨mn2, hmn2⟩ := get_min_cell_voltage_isSome _
    (c2WithHighCell s pre post b v2).cell_min_voltage v2 b hmem2
  have hp1 := penalty_loop_insert_high cfg s.max_battery_voltage
    s.soc_reset_battery_voltage pre post b v1 hne hv1 hv10
  have hp2 := penalty_loop_insert_high cfg s.max_battery_voltage
    s.soc_reset_battery_voltage pre post b v2 hne hv2 hv20
  have hfh1 : (penalty_loop cfg (c2WithHighCell s pre post b v1).max_battery_voltage
      (c2WithHighCell s pre post b v1).soc_reset_battery_voltage
      (c2WithHighCell s pre post b v1).cells
      (c2WithHighCell s pre post b v1).cell_count).2.1 = true := by
    simp only [c2WithHighCell]
    rw [hp1]
  have hfh2 : (penalty_loop cfg (c2WithHighCell s pre post b v2).max_battery_voltage
      (c2WithHighCell s pre post b v2).soc_reset_battery_voltage
      (c2WithHighCell s pre post b v2).cells
      (c2WithHighCell s pre post b v2).cell_count).2.1 = true := by
    simp only [c2WithHighCell]
    rw [hp2]
  have hallow1 : (cvl_timer_update cfg t
      (penalty_loop cfg (c2WithHighCell s pre post b v1).max_battery_voltage
        (c2WithHighCell s pre post b v1).soc_reset_battery_voltage
        (c2WithHighCell s pre post b v1).cells
        (c2WithHighCell s pre post b v1).cell_count).1 (mx1 - mn1)
      (c2WithHighCell s pre post b v1)).allow_max_voltage = true :=
    cvl_timer_update_allow_of_running cfg t t0 _ _ _ hmvst hallow ht ht0
  have hallow2 : (cvl_timer_update cfg t
      (penalty_loop cfg (c2WithHighCell s pre post b v2).max_battery_voltage
        (c2WithHighCell s pre post b v2).soc_reset_battery_voltage
        (c2WithHighCell s pre post b v2).cells
        (c2WithHighCell s pre post b v2).cell_count).1 (mx2 - mn2)
      (c2WithHighCell s pre post b v2)).allow_max_voltage = true :=
    cvl_timer_update_allow_of_running cfg t t0 _ _ _ hmvst hallow ht ht0
  rw [mcvl_penalty_commit cfg t (c2WithHighCell s pre post b v2) mx2 mn2 hic hmx2
      hmn2 hfh2 hallow2 hthrottle,
    mcvl_penalty_commit cfg t (c2WithHighCell s pre post b v1) mx1 mn1 hic hmx1
      hmn1 hfh1 hallow1 hthrottle]
  simp only [c2WithHighCell]
  rw [hp1, hp2]
  congr 3
  ring_nf

/-- The battery of `c6State` with its high cell raised from 3.50 V to
3.60 V. -/
def c2State36 : CVLState :=
  { c6State with
    cells := [⟨some (3.6 : ℚ), some false⟩, ⟨some (3.44 : ℚ), some false⟩,
              ⟨some (3.44 : ℚ), some false⟩, ⟨some (3.44 : ℚ), some false⟩] }

/-- C2, counterexample to the claim as stated: raising the single high
cell from 3.50 V (`c6State`) to 3.60 V (`c2State36`) leaves the emitted
CVL at exactly 13.77 V — well above the 11.6 V floor — because the
penalty grows by precisely the amount the pack sum grows.  The CVL is
not strictly lowered as the cell rises. -/
theorem C2_counterexample :
    (manage_charge_voltage_linear baseCfg 100 c2State36).control_voltage =
      some (13.77 : ℚ) ∧
    (manage_charge_voltage_linear baseCfg 100 c6State).control_voltage =
      some (13.77 : ℚ) ∧
    c6State.min_battery_voltage < (13.77 : ℚ) ∧ (3.5 : ℚ) < 3.6 := by
  have hval : roundTo 3 (1377/100 : ℚ) = (13.77 : ℚ) := by
    rw [roundTo_eq_of 3 (1377/100 : ℚ) 13770 (by norm_num) (by norm_num)]
    norm_num
  refine ⟨?_, ?_, by norm_num [c6State], by norm_num⟩
  · rw [mcvl_penalty_commit baseCfg 100 c2State36 (3.6 : ℚ) (3.44 : ℚ) rfl
      (by norm_num [get_max_cell_voltage, c2State36, c6State, List.filterMap_cons])
      (by norm_num [get_min_cell_voltage, c2State36, c6State, List.filterMap_cons])
      (by norm_num [penalty_loop, penalty_step, c2State36, c6State, baseCfg])
      (by norm_num [cvl_timer_update, penalty_loop, penalty_step, c2State36, c6State,
        baseCfg])
      (by norm_num [c2State36, c6State, baseCfg])]
    have hp : penalty_loop baseCfg c2State36.max_battery_voltage
        c2State36.soc_reset_battery_voltage c2State36.cells c2State36.cell_count =
        (1392/100, true, 15/100) := by
      norm_num [penalty_loop, penalty_step, c2State36, c6State, baseCfg]
    rw [hp]
    norm_num [c2State36, c6State, hval]
  · rw [mcvl_penalty_commit baseCfg 100 c6State (3.5 : ℚ) (3.44 : ℚ) rfl
      (by norm_num [get_max_cell_voltage, c6State, List.filterMap_cons])
      (by norm_num [get_min_cell_voltage, c6State, List.filterMap_cons])
      (by norm_num [penalty_loop, penalty_step, c6State, baseCfg])
      (by norm_num [cvl_timer_update, penalty_loop, penalty_step, c6State, baseCfg])
      (by norm_num [c6State, baseCfg])]
    have hp : penalty_loop baseCfg c6State.max_battery_voltage
        c6State.soc_reset_battery_voltage c6State.cells c6State.cell_count =
        (1382/100, true, 5/100) := by
      norm_num [penalty_loop, penalty_step, c6State, baseCfg]
    rw [hp]
    norm_num [c6State, hval]

/-- C2, witness: the amended constancy theorem applied with the high cell
at 3.5 V and 3.6 V over three fixed 3.44 V cells. -/
theorem C2_penalty_cvl_constant_witness :
    baseCfg.CVL_ICONTROLLER_MODE = false ∧
    ¬ c6State.max_battery_voltage = c6State.soc_reset_battery_voltage ∧
    (0 : ℚ) ≤ baseCfg.MAX_CELL_VOLTAGE ∧
    (3.5 : ℚ) > baseCfg.MAX_CELL_VOLTAGE ∧
    (3.6 : ℚ) > baseCfg.MAX_CELL_VOLTAGE ∧
    c6State.max_voltage_start_time = some 0 ∧
    c6State.allow_max_voltage = true ∧
    (100 : ℤ) - 0 ≤ baseCfg.MAX_VOLTAGE_TIME_SEC ∧
    (0 : ℤ) ≤ baseCfg.MAX_VOLTAGE_TIME_SEC ∧
    baseCfg.LINEAR_RECALCULATION_EVERY ≤ 100 - c6State.linear_cvl_last_set ∧
    (manage_charge_voltage_linear baseCfg 100
        (c2WithHighCell c6State []
          [⟨some (3.44 : ℚ), some false⟩, ⟨some (3.44 : ℚ), some false⟩,
           ⟨some (3.44 : ℚ), some false⟩] (some false) (3.6 : ℚ))).control_voltage =
      (manage_charge_voltage_linear baseCfg 100
        (c2WithHighCell c6State []
          [⟨some (3.44 : ℚ), some false⟩, ⟨some (3.44 : ℚ), some false⟩,
           ⟨some (3.44 : ℚ), some false⟩] (some false) (3.5 : ℚ))).control_voltage :=
  ⟨rfl, by norm_num [c6State], by norm_num [baseCfg], by norm_num [baseCfg],
   by norm_num [baseCfg], rfl, rfl, by norm_num [baseCfg], by norm_num [baseCfg],
   by norm_num [c6State, baseCfg],
   C2_penalty_cvl_constant baseCfg 100 0 c6State []
     [⟨some (3.44 : ℚ), some false⟩, ⟨some (3.44 : ℚ), some false⟩,
      ⟨some (3.44 : ℚ), some false⟩] (some false) (3.5 : ℚ) (3.6 : ℚ)
     rfl (by norm_num [c6State]) (by norm_num [baseCfg]) (by norm_num [baseCfg])
     (by norm_num [baseCfg]) rfl rfl (by norm_num [baseCfg]) (by norm_num [baseCfg])
     (by norm_num [c6State, baseCfg])⟩

/-- C7: while in Float Transition (the stored mode string starts with
"Float Transition") with `allow_max_voltage` false after the timer
block, a truthy previous `control_voltage`, `transition_start_time` set
to `ts`, and the commit throttle open, `manage_charge_voltage_linear`
commits `initial_control_voltage − min(0.001·(t − ts),
initial_control_voltage − float_V)` with `float_V =
round(FLOAT_CELL_VOLTAGE · cell_count, 3)` (a 0.001 V/s ramp); once the
committed CVL reaches `float_V` the mode becomes "Float (Linear Mode)"
and `control_voltage = float_V`, otherwise the mode stays
"Float Transition (Linear Mode)". -/
theorem C7_float_transition_ramp (cfg : Config) (t ts : ℤ) (s : CVLState)
    (mx mn : ℚ) (cm : String) (cv0 : ℚ)
    (hmx : get_max_cell_voltage s.cells s.cell_max_voltage = some mx)
    (hmn : get_min_cell_voltage s.cells s.cell_min_voltage = some mn)
    (hallow : (cvl_timer_update cfg t
        (penalty_loop cfg s.max_battery_voltage s.soc_reset_battery_voltage
          s.cells s.cell_count).1 (mx - mn) s).allow_max_voltage = false)
    (hcm : s.charge_mode = some cm)
    (hcmF : pyStartsWith cm labelFloat = true)
    (hcmFT : pyStartsWith cm labelFloatTransition = true)
    (hcv : s.control_voltage = some cv0) (hcv0 : cv0 ≠ 0)
    (hts : s.transition_start_time = some ts)
    (hthrottle : cfg.LINEAR_RECALCULATION_EVERY ≤ t - s.linear_cvl_last_set) :
    ((manage_charge_voltage_linear cfg t s).control_voltage =
      (if s.initial_control_voltage -
            min ((0.01 : ℚ)/10 * ((t - ts : ℤ) : ℚ))
              (s.initial_control_voltage -
                roundTo 3 (cfg.FLOAT_CELL_VOLTAGE * (s.cell_count : ℚ))) ≤
          roundTo 3 (cfg.FLOAT_CELL_VOLTAGE * (s.cell_count : ℚ))
        then some (roundTo 3 (cfg.FLOAT_CELL_VOLTAGE * (s.cell_count : ℚ)))
        else some (s.initial_control_voltage -
          min ((0.01 : ℚ)/10 * ((t - ts : ℤ) : ℚ))
            (s.initial_control_voltage -
              roundTo 3 (cfg.FLOAT_CELL_VOLTAGE * (s.cell_count : ℚ)))))) ∧
    ((manage_charge_voltage_linear cfg t s).charge_mode =
      (if s.initial_control_voltage -
            min ((0.01 : ℚ)/10 * ((t - ts : ℤ) : ℚ))
              (s.initial_control_voltage -
                roundTo 3 (cfg.FLOAT_CELL_VOLTAGE * (s.cell_count : ℚ))) ≤
          roundTo 3 (cfg.FLOAT_CELL_VOLTAGE * (s.cell_count : ℚ))
        then some (labelFloat ++ labelLinearMode)
        else some (labelFloatTransition ++ labelLinearMode))) := by
  obtain ⟨a, m, hshape⟩ := cvl_timer_update_shape cfg t
    (penalty_loop cfg s.max_battery_voltage s.soc_reset_battery_voltage
      s.cells s.cell_count).1 (mx - mn) s
  rw [hshape] at hallow
  dsimp only at hallow
  unfold manage_charge_voltage_linear mcvl_body
  rw [hmx, hmn]
  dsimp only
  rw [hshape]
  rw [if_neg (by dsimp only; rw [hallow]; simp)]
  rw [if_neg (by dsimp only; rw [hallow]; simp)]
  dsimp only
  by_cases hsr : s.soc_reset_requested
  · rw [if_pos hsr]
    rw [if_pos (by dsimp only; rw [hcv]; simp [ratTruthy, hcv0])]
    dsimp only
    rw [hcm]
    dsimp only
    rw [if_neg (by simp [hcmF])]
    rw [if_pos hcmFT]
    rw [hts]
    dsimp only
    rw [set_cvl_linear_commits cfg t _ _ (by dsimp only; exact hthrottle)]
    dsimp only
    split_ifs with hreach
    · constructor
      · rw [mcvl_finish_control_voltage]
      · rw [mcvl_finish_charge_mode_of_not_allow]
        dsimp only
        exact hallow
    · constructor
      · rw [mcvl_finish_control_voltage]
      · rw [mcvl_finish_charge_mode_of_not_allow]
        dsimp only
        exact hallow
  · rw [if_neg hsr]
    rw [if_pos (by dsimp only; rw [hcv]; simp [ratTruthy, hcv0])]
    dsimp only
    rw [hcm]
    dsimp only
    rw [if_neg (by simp [hcmF])]
    rw [if_pos hcmFT]
    rw [hts]
    dsimp only
    rw [set_cvl_linear_commits cfg t _ _ (by dsimp only; exact hthrottle)]
    dsimp only
    split_ifs with hreach
    · constructor
      · rw [mcvl_finish_control_voltage]
      · rw [mcvl_finish_charge_mode_of_not_allow]
        dsimp only
        exact hallow
    · constructor
      · rw [mcvl_finish_control_voltage]
      · rw [mcvl_finish_charge_mode_of_not_allow]
        dsimp only
        exact hallow

/-- A battery in Float Transition: four cells at 3.40 V, ramp started at
time 0 from an initial CVL of 13.8 V, currently at 13.7 V, SoC 95 %,
`allow_max_voltage` cleared. -/
def c7State : CVLState :=
  { cells := [⟨some (3.4 : ℚ), some false⟩, ⟨some (3.4 : ℚ), some false⟩,
              ⟨some (3.4 : ℚ), some false⟩, ⟨some (3.4 : ℚ), some false⟩]
    cell_count := 4
    cell_min_voltage := none
    cell_max_voltage := none
    max_battery_voltage := 13.8
    min_battery_voltage := 11.6
    soc_reset_battery_voltage := 14.6
    soc_reset_requested := false
    soc_reset_last_reached := 0
    soc_calc := 95
    allow_max_voltage := false
    max_voltage_start_time := none
    transition_start_time := some 0
    initial_control_voltage := 13.8
    control_voltage := some (13.7 : ℚ)
    charge_mode := some (labelFloatTransition ++ labelLinearMode)
    linear_cvl_last_set := 0 }

/-- C7, witness: the ramp theorem applied at `c7State`, 100 s into the
transition. -/
theorem C7_float_transition_ramp_witness :
    get_max_cell_voltage c7State.cells c7State.cell_max_voltage = some (3.4 : ℚ) ∧
    get_min_cell_voltage c7State.cells c7State.cell_min_voltage = some (3.4 : ℚ) ∧
    (cvl_timer_update baseCfg 100
        (penalty_loop baseCfg c7State.max_battery_voltage
          c7State.soc_reset_battery_voltage c7State.cells c7State.cell_count).1
        ((3.4 : ℚ) - (3.4 : ℚ)) c7State).allow_max_voltage = false ∧
    c7State.charge_mode = some (labelFloatTransition ++ labelLinearMode) ∧
    pyStartsWith (labelFloatTransition ++ labelLinearMode) labelFloat = true ∧
    pyStartsWith (labelFloatTransition ++ labelLinearMode) labelFloatTransition = true ∧
    c7State.control_voltage = some (13.7 : ℚ) ∧
    (13.7 : ℚ) ≠ 0 ∧
    c7State.transition_start_time = some 0 ∧
    baseCfg.LINEAR_RECALCULATION_EVERY ≤ 100 - c7State.linear_cvl_last_set ∧
    (((manage_charge_voltage_linear baseCfg 100 c7State).control_voltage =
      (if c7State.initial_control_voltage -
            min ((0.01 : ℚ)/10 * ((100 - 0 : ℤ) : ℚ))
              (c7State.initial_control_voltage -
                roundTo 3 (baseCfg.FLOAT_CELL_VOLTAGE * (c7State.cell_count : ℚ))) ≤
          roundTo 3 (baseCfg.FLOAT_CELL_VOLTAGE * (c7State.cell_count : ℚ))
        then some (roundTo 3 (baseCfg.FLOAT_CELL_VOLTAGE * (c7State.cell_count : ℚ)))
        else some (c7State.initial_control_voltage -
          min ((0.01 : ℚ)/10 * ((100 - 0 : ℤ) : ℚ))
            (c7State.initial_control_voltage -
              roundTo 3 (baseCfg.FLOAT_CELL_VOLTAGE * (c7State.cell_count : ℚ)))))) ∧
    ((manage_charge_voltage_linear baseCfg 100 c7State).charge_mode =
      (if c7State.initial_control_voltage -
            min ((0.01 : ℚ)/10 * ((100 - 0 : ℤ) : ℚ))
              (c7State.initial_control_voltage -
                roundTo 3 (baseCfg.FLOAT_CELL_VOLTAGE * (c7State.cell_count : ℚ))) ≤
          roundTo 3 (baseCfg.FLOAT_CELL_VOLTAGE * (c7State.cell_count : ℚ))
        then some (labelFloat ++ labelLinearMode)
        else some (labelFloatTransition ++ labelLinearMode)))) :=
  ⟨by norm_num [get_max_cell_voltage, c7State, List.filterMap_cons],
   by norm_num [get_min_cell_voltage, c7State, List.filterMap_cons],
   by norm_num [cvl_timer_update, penalty_loop, penalty_step, c7State, baseCfg],
   rfl, by decide, by decide, rfl, by norm_num, rfl,
   by norm_num [c7State, baseCfg],
   C7_float_transition_ramp baseCfg 100 0 c7State (3.4 : ℚ) (3.4 : ℚ)
     (labelFloatTransition ++ labelLinearMode) (13.7 : ℚ)
     (by norm_num [get_max_cell_voltage, c7State, List.filterMap_cons])
     (by norm_num [get_min_cell_voltage, c7State, List.filterMap_cons])
     (by norm_num [cvl_timer_update, penalty_loop, penalty_step, c7State, baseCfg])
     rfl (by decide) (by decide) rfl (by norm_num) rfl
     (by norm_num [c7State, baseCfg])⟩

/-- The state of `c5State` with no BMS-reported SoC, so initialization
assumes a full battery. -/
def c5wState : SocState := { c5State with soc := none }

/-- The state after `soc_calculation` on `c5wState` at time 0. -/
def c5wPost : SocState :=
  { c5wState with
    current_corrected := 0
    soc_calc_capacity_remain := some 100
    soc_calc_capacity_remain_lasttime := 0
    soc_calc := some 100 }

/-- C5, witness: the amended invariant applied at `c5wState` (capacity
100 Ah, no telemetry-seeded SoC), whose post-state is `c5wPost`. -/
theorem C5_soc_invariant_witness :
    0 < c5wState.capacity ∧
    c5wState.soc.all (fun v => decide ((0 : ℚ) ≤ v) && decide (v ≤ 100)) = true ∧
    c5wState.soc_calc.all (fun v => decide ((0 : ℚ) ≤ v) && decide (v ≤ 100)) = true ∧
    soc_calculation baseCfg id 0 c5wState = some c5wPost ∧
    ((∃ sc, c5wPost.soc_calc = some sc ∧ 0 ≤ sc ∧ sc ≤ 100) ∧
     (∃ r, c5wPost.soc_calc_capacity_remain = some r ∧ 0 ≤ r ∧ r ≤ c5wPost.capacity)) := by
  have hround : roundTo 2 (100 : ℚ) = 100 := by
    rw [roundTo_eq_of 2 (100 : ℚ) 10000 (by norm_num) (by norm_num)]
    norm_num
  have hrun : soc_calculation baseCfg id 0 c5wState = some c5wPost := by
    norm_num [soc_calculation, c5wState, c5State, c5wPost, hround]
  exact ⟨by norm_num [c5wState, c5State], by simp [c5wState, c5State],
    by simp [c5wState, c5State], hrun,
    C5_soc_invariant baseCfg id 0 c5wState c5wPost
      (by norm_num [c5wState, c5State]) (by simp [c5wState, c5State])
      (by simp [c5wState, c5State]) hrun⟩

/-!  Current limiter: `Battery.manage_charge_current` (claims C4, C8). -/

/-- A Python dict with float keys and string values, as an association
list in insertion order (`charge_limits` / `discharge_limits`). -/
def dictHas (d : List (ℚ × String)) (k : ℚ) : Bool := d.any fun p => p.1 = k

/-- Python `d[k] = v`: replace in place when `k` is present, else append. -/
def dictUpdate (d : List (ℚ × String)) (k : ℚ) (v : String) : List (ℚ × String) :=
  if dictHas d k then d.map fun p => if p.1 = k then (k, v) else p
  else d ++ [(k, v)]

/-- Python `d[k]` on a dict known to contain `k`. -/
def dictGet (d : List (ℚ × String)) (k : ℚ) : String :=
  ((d.find? fun p => p.1 = k).map Prod.snd).getD ""

/-- Python `min(d)`: the minimum over the keys (the dicts here are never
empty; `dflt` is returned for an empty list). -/
def dictMinKey (d : List (ℚ × String)) (dflt : ℚ) : ℚ :=
  match d with
  | [] => dflt
  | p :: ps => ps.foldl (fun m q => min m q.1) p.1

/-- The candidate-insertion pattern repeated for each derating rule in
`manage_charge_current`: skipped when the BMS-reported maximum equals the
candidate (Python `!=` against a possibly-`None` field); when the key
already exists with a non-global reason the rule name is appended to it,
when it exists with the global reason nothing happens, else the candidate
is inserted. -/
def addLimit (d : List (ℚ × String)) (bmsMax : Option ℚ) (tmp : ℚ)
    (globalName name : String) : List (ℚ × String) :=
  if bmsMax = some tmp then d
  else if dictHas d tmp then
    if dictGet d tmp ≠ globalName then
      dictUpdate d tmp (dictGet d tmp ++ labelCommaSep ++ name)
    else d
  else dictUpdate d tmp name

/-- The fields of `Battery` read or written by `manage_charge_current`. -/
structure CCLState where
  max_battery_charge_current : Option ℚ
  max_battery_discharge_current : Option ℚ
  charge_fet : Option Bool
  discharge_fet : Option Bool
  block_because_disconnect : Bool
  control_charge_current : Option ℚ
  control_discharge_current : Option ℚ
  control_allow_charge : Option Bool
  control_allow_discharge : Option Bool
  charge_limitation : Option String
  discharge_limitation : Option String
  linear_ccl_last_set : ℤ
  linear_dcl_last_set : ℤ
deriving Repr, DecidableEq

/-- The opening of each side of `manage_charge_current` (battery.py lines
752–761 / 843–855): the configured global ceiling entry, plus the
BMS-reported ceiling when it is a number strictly below the configured
one. -/
def limits_with_bms (globalMax : ℚ) (gname : String) (bms : Option ℚ) :
    List (ℚ × String) :=
  match bms with
  | some m0 => if globalMax > m0 then
      dictUpdate [(globalMax, gname)] m0 labelBmsSettings
    else [(globalMax, gname)]
  | none => [(globalMax, gname)]

/-- One `if utils.CCCM_*_ENABLE:`-guarded derating rule of
`manage_charge_current`. -/
def limits_with_rule (enable : Bool) (d : List (ℚ × String)) (bms : Option ℚ)
    (tmp : ℚ) (gname n : String) : List (ℚ × String) :=
  if enable then addLimit d bms tmp gname n else d

/-- The hard-zero clause of `manage_charge_current` (battery.py lines
802–806 / 896–900): when the FET is off or the disconnect latch is set,
insert key 0 with reason "BMS" (appending to an existing key-0 reason). -/
def limits_with_hard_zero (blocked : Prop) [Decidable blocked]
    (d : List (ℚ × String)) : List (ℚ × String) :=
  if blocked then
    if dictHas d 0 then dictUpdate d 0 (dictGet d 0 ++ labelCommaSep ++ labelBms)
    else dictUpdate d 0 labelBms
  else d

/-- The charge-side candidate dictionary of `manage_charge_current`
(battery.py lines 752–806), assembled from the stages above in source
order.  The derating candidates `cv_c`, `t_c`, `soc_c` stand for the
results of `calcMaxChargeCurrentReferringTo{CellVoltage,Temperature,Soc}`,
which interpolate over `utils` curves not part of the sources under
verification, and are passed as parameters. -/
def charge_limits_dict (cfg : Config) (s : CCLState) (cv_c t_c soc_c : ℚ) :
    List (ℚ × String) :=
  limits_with_hard_zero (s.charge_fet = some false ∨ s.block_because_disconnect)
    (limits_with_rule cfg.CCCM_SOC_ENABLE
      (limits_with_rule cfg.CCCM_T_ENABLE
        (limits_with_rule cfg.CCCM_CV_ENABLE
          (limits_with_bms cfg.MAX_BATTERY_CHARGE_CURRENT labelMaxChargeCurrent
            s.max_battery_charge_current)
          s.max_battery_charge_current cv_c labelMaxChargeCurrent labelCellVoltage)
        s.max_battery_charge_current t_c labelMaxChargeCurrent labelTemp)
      s.max_battery_charge_current soc_c labelMaxChargeCurrent labelSoc)

/-- The discharge-side candidate dictionary of `manage_charge_current`
(battery.py lines 843–900), symmetric to `charge_limits_dict`. -/
def discharge_limits_dict (cfg : Config) (s : CCLState) (cv_d t_d soc_d : ℚ) :
    List (ℚ × String) :=
  limits_with_hard_zero (s.discharge_fet = some false ∨ s.block_because_disconnect)
    (limits_with_rule cfg.DCCM_SOC_ENABLE
      (limits_with_rule cfg.DCCM_T_ENABLE
        (limits_with_rule cfg.DCCM_CV_ENABLE
          (limits_with_bms cfg.MAX_BATTERY_DISCHARGE_CURRENT
            labelMaxDischargeCurrent s.max_battery_discharge_current)
          s.max_battery_discharge_current cv_d labelMaxDischargeCurrent
          labelCellVoltage)
        s.max_battery_discharge_current t_d labelMaxDischargeCurrent labelTemp)
      s.max_battery_discharge_current soc_d labelMaxDischargeCurrent labelSoc)

/-- The discharge half of `Battery.manage_charge_current` (battery.py
lines 842–932), run on the state `s2` left by the charge half.  The Bool
component records whether a `TypeError` was raised (the percentage
clause multiplies a `None` previous limit when the `or` short-circuit
reaches it); the state component is the object state at that point,
since Python mutations persist across the raise. -/
def manage_charge_current_discharge (cfg : Config) (t : ℤ)
    (cv_d t_d soc_d : ℚ) (s2 : CCLState) : CCLState × Bool :=
  let dd := discharge_limits_dict cfg s2 cv_d t_d soc_d
  let dcl := roundTo 3 (dictMinKey dd 0)
  let diffd := match s2.control_discharge_current with
    | some p => |p - dcl|
    | none => 0
  let condd : Option Bool :=
    if cfg.LINEAR_RECALCULATION_EVERY ≤ t - s2.linear_dcl_last_set then some true
    else if dcl = 0 then some true
    else match s2.control_discharge_current with
      | some p => some (decide (diffd ≥ p * cfg.LINEAR_RECALCULATION_ON_PERC_CHANGE / 100))
      | none => none
  match condd with
  | none => (s2, true)
  | some bd =>
    let s3 := if bd then
        { s2 with linear_dcl_last_set := t, control_discharge_current := some dcl,
                  discharge_limitation := some (dictGet dd (dictMinKey dd 0)) }
      else s2
    ({ s3 with
      control_allow_discharge := some (!(decide (s3.control_discharge_current = some 0))) },
     false)

/-- Embedding of `Battery.manage_charge_current` (battery.py lines
751–932), the six derating candidates passed as parameters: the charge
half followed by `manage_charge_current_discharge`. -/
def manage_charge_current (cfg : Config) (t : ℤ)
    (cv_c t_c soc_c cv_d t_d soc_d : ℚ) (s : CCLState) : CCLState × Bool :=
  let d := charge_limits_dict cfg s cv_c t_c soc_c
  let ccl := roundTo 3 (dictMinKey d 0)
  let diff := match s.control_charge_current with
    | some p => |p - ccl|
    | none => 0
  let cond : Option Bool :=
    if cfg.LINEAR_RECALCULATION_EVERY ≤ t - s.linear_ccl_last_set then some true
    else if ccl = 0 then some true
    else match s.control_charge_current with
      | some p => some (decide (diff ≥ p * cfg.LINEAR_RECALCULATION_ON_PERC_CHANGE / 100))
      | none => none
  match cond with
  | none => (s, true)
  | some b =>
    let s1 := if b then
        { s with linear_ccl_last_set := t, control_charge_current := some ccl,
                 charge_limitation := some (dictGet d (dictMinKey d 0)) }
      else s
    let s2 := { s1 with
      control_allow_charge := some (!(decide (s1.control_charge_current = some 0))) }
    manage_charge_current_discharge cfg t cv_d t_d soc_d s2

/-!  Derating fallback: `calcMaxDischargeCurrentReferringToCellVoltage`
(claim C9). -/

/-- The fields read by `calcMaxDischargeCurrentReferringToCellVoltage`
(both ceiling fields are kept so that the fallback's choice between them
is observable). -/
structure DcvState where
  cells : List Cell
  cell_min_voltage : Option ℚ
  max_battery_charge_current : Option ℚ
  max_battery_discharge_current : Option ℚ
deriving Repr, DecidableEq

/-- Embedding of `Battery.calcMaxDischargeCurrentReferringToCellVoltage`
(battery.py lines 965–994).  `curve` stands for the interpolation taken
inside the `try:` — `utils.calcLinearRelationship` or
`utils.calcStepRelationship` over the configured discharge curve, from
the `utils` module which is not part of the sources under verification —
returning `none` when it raises (e.g. on a `None` minimum cell voltage).
On an exception the source logs and returns
`self.max_battery_charge_current`, the charge-side default. -/
def calcMaxDischargeCurrentReferringToCellVoltage
    (curve : Option ℚ → Option ℚ) (s : DcvState) : Option ℚ :=
  match curve (get_min_cell_voltage s.cells s.cell_min_voltage) with
  | some v => some v
  | none => s.max_battery_charge_current

/-!  Validation: `Battery.validate_data` (claim C10). -/

/-- The fields read by `validate_data`. -/
structure ValState where
  capacity : Option ℚ
  current : Option ℚ
  voltage : Option ℚ
  soc : Option ℚ
deriving Repr, DecidableEq

/-- The `x is not None and (x < lo or x > hi)` test that `validate_data`
performs on `capacity`, `voltage` and `soc`. -/
def field_out_of_range (lo hi : ℚ) (x : Option ℚ) : Bool :=
  match x with
  | some v => decide (v < lo) || decide (v > hi)
  | none => false

/-- The `current is not None and abs(current) > 1000` test of
`validate_data`. -/
def current_out_of_range (x : Option ℚ) : Bool :=
  match x with
  | some c => decide (|c| > 1000)
  | none => false

/-- Embedding of `Battery.validate_data` (battery.py lines 1432–1458):
each bound is checked only when the field is not `None`; the first
violated bound returns `False`, else `True`. -/
def validate_data (s : ValState) : Bool :=
  if field_out_of_range 0 1000 s.capacity then false
  else if current_out_of_range s.current then false
  else if field_out_of_range 0 100 s.voltage then false
  else if field_out_of_range 0 100 s.soc then false
  else true

lemma roundTo_zero (n : ℕ) : roundTo n (0 : ℚ) = 0 := by
  simp [roundTo]

/-- Every entry of `dictUpdate d k v` has key `k` or comes from `d`. -/
lemma mem_dictUpdate {d : List (ℚ × String)} {k : ℚ} {v : String} {p : ℚ × String}
    (hp : p ∈ dictUpdate d k v) : p.1 = k ∨ p ∈ d := by
  unfold dictUpdate at hp
  split_ifs at hp with h
  · obtain ⟨q, hq, hfq⟩ := List.mem_map.mp hp
    by_cases hqk : q.1 = k
    · rw [if_pos hqk] at hfq
      left
      rw [← hfq]
    · rw [if_neg hqk] at hfq
      right
      rw [← hfq]
      exact hq
  · rcases List.mem_append.mp hp with h1 | h1
    · right; exact h1
    · left
      rw [List.mem_singleton.mp h1]

/-- `dictUpdate d k v` always contains an entry with key `k`. -/
lemma exists_key_dictUpdate (d : List (ℚ × String)) (k : ℚ) (v : String) :
    ∃ p ∈ dictUpdate d k v, p.1 = k := by
  unfold dictUpdate
  split_ifs with h
  · obtain ⟨q, hq, hqk⟩ := List.any_eq_true.mp h
    refine ⟨(k, v), List.mem_map.mpr ⟨q, hq, ?_⟩, rfl⟩
    rw [if_pos (of_decide_eq_true hqk)]
  · exact ⟨(k, v), List.mem_append.mpr (Or.inr (List.mem_singleton.mpr rfl)), rfl⟩

/-- Every entry of `addLimit d bms tmp gn n` has key `tmp` or comes from
`d`. -/
lemma mem_addLimit {d : List (ℚ × String)} {bms : Option ℚ} {tmp : ℚ}
    {gn n : String} {p : ℚ × String}
    (hp : p ∈ addLimit d bms tmp gn n) : p.1 = tmp ∨ p ∈ d := by
  unfold addLimit at hp
  split_ifs at hp
  · exact Or.inr hp
  · exact mem_dictUpdate hp
  · exact Or.inr hp
  · exact mem_dictUpdate hp

/-- Same, through the feature-toggle conditional. -/
lemma mem_ite_addLimit {c : Prop} [Decidable c] {d : List (ℚ × String)}
    {bms : Option ℚ} {tmp : ℚ} {gn n : String} {p : ℚ × String}
    (hp : p ∈ (if c then addLimit d bms tmp gn n else d)) : p.1 = tmp ∨ p ∈ d := by
  split_ifs at hp
  · exact mem_addLimit hp
  · exact Or.inr hp

lemma foldl_min_le_init (l : List (ℚ × String)) (a : ℚ) :
    l.foldl (fun m q => min m q.1) a ≤ a := by
  induction l generalizing a with
  | nil => exact le_refl a
  | cons q qs ih => exact le_trans (ih (min a q.1)) (min_le_left _ _)

lemma foldl_min_le_mem (l : List (ℚ × String)) (a : ℚ) {p : ℚ × String}
    (hp : p ∈ l) : l.foldl (fun m q => min m q.1) a ≤ p.1 := by
  induction l generalizing a with
  | nil => cases hp
  | cons q qs ih =>
    rcases List.mem_cons.mp hp with h | h
    · subst h
      exact le_trans (foldl_min_le_init qs (min a p.1)) (min_le_right _ _)
    · exact ih (min a q.1) h

lemma foldl_min_choice (l : List (ℚ × String)) (a : ℚ) :
    l.foldl (fun m q => min m q.1) a = a ∨
      ∃ p ∈ l, l.foldl (fun m q => min m q.1) a = p.1 := by
  induction l generalizing a with
  | nil => exact Or.inl rfl
  | cons q qs ih =>
    rcases ih (min a q.1) with h | ⟨p, hp, h⟩
    · rw [List.foldl_cons, h]
      rcases min_choice a q.1 with hm | hm
      · exact Or.inl hm
      · exact Or.inr ⟨q, List.mem_cons_self _ _, hm⟩
    · exact Or.inr ⟨p, List.mem_cons_of_mem _ hp, by rw [List.foldl_cons, h]⟩

lemma dictMinKey_le (d : List (ℚ × String)) (dflt : ℚ) {p : ℚ × String}
    (hp : p ∈ d) : dictMinKey d dflt ≤ p.1 := by
  cases d with
  | nil => cases hp
  | cons q qs =>
    rcases List.mem_cons.mp hp with h | h
    · subst h
      exact foldl_min_le_init qs p.1
    · exact foldl_min_le_mem qs q.1 h

lemma dictMinKey_mem (d : List (ℚ × String)) (dflt : ℚ) (hne : d ≠ []) :
    ∃ p ∈ d, dictMinKey d dflt = p.1 := by
  cases d with
  | nil => exact absurd rfl hne
  | cons q qs =>
    rcases foldl_min_choice qs q.1 with h | ⟨p, hp, h⟩
    · exact ⟨q, List.mem_cons_self _ _, h⟩
    · exact ⟨p, List.mem_cons_of_mem _ hp, h⟩

/-- A nonempty candidate dict with nonnegative keys containing key 0 has
minimum key 0. -/
lemma dictMinKey_eq_zero {d : List (ℚ × String)}
    (hnn : ∀ p ∈ d, 0 ≤ p.1) (hz : ∃ p ∈ d, p.1 = 0) : dictMinKey d 0 = 0 := by
  obtain ⟨pz, hpz, hz0⟩ := hz
  have hle : dictMinKey d 0 ≤ 0 := by
    have := dictMinKey_le d 0 hpz
    rw [hz0] at this
    exact this
  obtain ⟨pm, hpm, hm⟩ := dictMinKey_mem d 0
    (by intro hcon; rw [hcon] at hpz; cases hpz)
  have hge : 0 ≤ dictMinKey d 0 := by
    rw [hm]
    exact hnn pm hpm
  exact le_antisymm hle hge

/-- Key-nonnegativity closure lemmas for the candidate dicts. -/
lemma keys_nonneg_singleton (k : ℚ) (v : String) (hk : 0 ≤ k) :
    ∀ p ∈ [(k, v)], 0 ≤ p.1 := by
  intro p hp
  rw [List.mem_singleton.mp hp]
  exact hk

lemma keys_nonneg_dictUpdate {d : List (ℚ × String)} {k : ℚ} {v : String}
    (hd : ∀ p ∈ d, 0 ≤ p.1) (hk : 0 ≤ k) : ∀ p ∈ dictUpdate d k v, 0 ≤ p.1 :=
  fun p hp => (mem_dictUpdate hp).elim (fun h => by rw [h]; exact hk) (hd p)

lemma keys_nonneg_addLimit {d : List (ℚ × String)} {bms : Option ℚ} {tmp : ℚ}
    {gn n : String} (hd : ∀ p ∈ d, 0 ≤ p.1) (htmp : 0 ≤ tmp) :
    ∀ p ∈ addLimit d bms tmp gn n, 0 ≤ p.1 :=
  fun p hp => (mem_addLimit hp).elim (fun h => by rw [h]; exact htmp) (hd p)

lemma keys_nonneg_ite {c : Prop} [Decidable c] {da db : List (ℚ × String)}
    (ha : ∀ p ∈ da, 0 ≤ p.1) (hb : ∀ p ∈ db, 0 ≤ p.1) :
    ∀ p ∈ (if c then da else db), 0 ≤ p.1 := by
  intro p hp
  split_ifs at hp
  · exact ha p hp
  · exact hb p hp

lemma keys_nonneg_limits_with_bms {globalMax : ℚ} {gname : String}
    {bms : Option ℚ} (hmax : 0 ≤ globalMax) (hbms : ∀ m, bms = some m → 0 ≤ m) :
    ∀ p ∈ limits_with_bms globalMax gname bms, 0 ≤ p.1 := by
  unfold limits_with_bms
  cases hmb : bms with
  | none => exact keys_nonneg_singleton _ _ hmax
  | some m0 =>
    dsimp only
    split_ifs with hgt
    · exact keys_nonneg_dictUpdate (keys_nonneg_singleton _ _ hmax) (hbms m0 hmb)
    · exact keys_nonneg_singleton _ _ hmax

lemma keys_nonneg_limits_with_rule {enable : Bool} {d : List (ℚ × String)}
    {bms : Option ℚ} {tmp : ℚ} {gname n : String}
    (hd : ∀ p ∈ d, 0 ≤ p.1) (htmp : 0 ≤ tmp) :
    ∀ p ∈ limits_with_rule enable d bms tmp gname n, 0 ≤ p.1 := by
  unfold limits_with_rule
  split_ifs with h
  · exact keys_nonneg_addLimit hd htmp
  · exact hd

lemma keys_nonneg_limits_with_hard_zero {blocked : Prop} [Decidable blocked]
    {d : List (ℚ × String)} (hd : ∀ p ∈ d, 0 ≤ p.1) :
    ∀ p ∈ limits_with_hard_zero blocked d, 0 ≤ p.1 := by
  unfold limits_with_hard_zero
  split_ifs with h1 h2
  · exact keys_nonneg_dictUpdate hd (le_refl 0)
  · exact keys_nonneg_dictUpdate hd (le_refl 0)
  · exact hd

/-- When blocked, the hard-zero stage yields an entry with key 0. -/
lemma limits_with_hard_zero_has_zero {blocked : Prop} [Decidable blocked]
    {d : List (ℚ × String)} (hb : blocked) :
    ∃ p ∈ limits_with_hard_zero blocked d, p.1 = 0 := by
  unfold limits_with_hard_zero
  rw [if_pos hb]
  split_ifs with h
  · exact exists_key_dictUpdate _ 0 _
  · exact exists_key_dictUpdate _ 0 _

/-- All keys of the charge-side candidate dict are nonnegative when the
ceilings and derating candidates are. -/
lemma charge_limits_keys_nonneg (cfg : Config) (s : CCLState) (cv_c t_c soc_c : ℚ)
    (hmax : 0 ≤ cfg.MAX_BATTERY_CHARGE_CURRENT)
    (hbms : ∀ m, s.max_battery_charge_current = some m → 0 ≤ m)
    (hcv : 0 ≤ cv_c) (ht : 0 ≤ t_c) (hsoc : 0 ≤ soc_c) :
    ∀ p ∈ charge_limits_dict cfg s cv_c t_c soc_c, 0 ≤ p.1 :=
  keys_nonneg_limits_with_hard_zero
    (keys_nonneg_limits_with_rule
      (keys_nonneg_limits_with_rule
        (keys_nonneg_limits_with_rule
          (keys_nonneg_limits_with_bms hmax hbms) hcv) ht) hsoc)

/-- All keys of the discharge-side candidate dict are nonnegative when
the ceilings and derating candidates are. -/
lemma discharge_limits_keys_nonneg (cfg : Config) (s : CCLState) (cv_d t_d soc_d : ℚ)
    (hmax : 0 ≤ cfg.MAX_BATTERY_DISCHARGE_CURRENT)
    (hbms : ∀ m, s.max_battery_discharge_current = some m → 0 ≤ m)
    (hcv : 0 ≤ cv_d) (ht : 0 ≤ t_d) (hsoc : 0 ≤ soc_d) :
    ∀ p ∈ discharge_limits_dict cfg s cv_d t_d soc_d, 0 ≤ p.1 :=
  keys_nonneg_limits_with_hard_zero
    (keys_nonneg_limits_with_rule
      (keys_nonneg_limits_with_rule
        (keys_nonneg_limits_with_rule
          (keys_nonneg_limits_with_bms hmax hbms) hcv) ht) hsoc)

/-- When the disconnect latch is set, the charge-side dict has the hard
zero entry. -/
lemma charge_limits_has_zero (cfg : Config) (s : CCLState) (cv_c t_c soc_c : ℚ)
    (hblock : s.block_because_disconnect = true) :
    ∃ p ∈ charge_limits_dict cfg s cv_c t_c soc_c, p.1 = 0 :=
  limits_with_hard_zero_has_zero (Or.inr hblock)

/-- When the disconnect latch is set, the discharge-side dict has the
hard zero entry. -/
lemma discharge_limits_has_zero (cfg : Config) (s : CCLState) (cv_d t_d soc_d : ℚ)
    (hblock : s.block_because_disconnect = true) :
    ∃ p ∈ discharge_limits_dict cfg s cv_d t_d soc_d, p.1 = 0 :=
  limits_with_hard_zero_has_zero (Or.inr hblock)

/-- The discharge half never touches the charge-side control fields. -/
lemma mcc_discharge_frame (cfg : Config) (t : ℤ) (cv_d t_d soc_d : ℚ)
    (s2 : CCLState) :
    (manage_charge_current_discharge cfg t cv_d t_d soc_d s2).1.control_charge_current =
        s2.control_charge_current ∧
    (manage_charge_current_discharge cfg t cv_d t_d soc_d s2).1.charge_limitation =
        s2.charge_limitation ∧
    (manage_charge_current_discharge cfg t cv_d t_d soc_d s2).1.control_allow_charge =
        s2.control_allow_charge := by
  unfold manage_charge_current_discharge
  dsimp only
  cases hprev : s2.control_discharge_current <;> split_ifs <;> simp
  all_goals split_ifs
  all_goals simp

/-- With the disconnect latch set and nonnegative ceilings/candidates,
the discharge half commits a zero DCL (bypassing the throttle), forbids
discharging, and completes without raising. -/
lemma mcc_discharge_zero (cfg : Config) (t : ℤ) (cv_d t_d soc_d : ℚ)
    (s2 : CCLState)
    (hblock : s2.block_because_disconnect = true)
    (hmaxd : 0 ≤ cfg.MAX_BATTERY_DISCHARGE_CURRENT)
    (hbmsd : ∀ m, s2.max_battery_discharge_current = some m → 0 ≤ m)
    (hcv : 0 ≤ cv_d) (ht : 0 ≤ t_d) (hsoc : 0 ≤ soc_d) :
    (manage_charge_current_discharge cfg t cv_d t_d soc_d s2).1.control_discharge_current =
        some 0 ∧
    (manage_charge_current_discharge cfg t cv_d t_d soc_d s2).1.control_allow_discharge =
        some false ∧
    (manage_charge_current_discharge cfg t cv_d t_d soc_d s2).2 = false := by
  have hdz : dictMinKey (discharge_limits_dict cfg s2 cv_d t_d soc_d) 0 = 0 :=
    dictMinKey_eq_zero
      (discharge_limits_keys_nonneg cfg s2 cv_d t_d soc_d hmaxd hbmsd hcv ht hsoc)
      (discharge_limits_has_zero cfg s2 cv_d t_d soc_d hblock)
  unfold manage_charge_current_discharge
  dsimp only
  rw [hdz, roundTo_zero]
  rw [if_pos (Eq.refl (0 : ℚ)), ite_self]
  simp

/-- C4: once `block_because_disconnect` is true, a run of
`manage_charge_current` (with nonnegative global ceilings, BMS-reported
ceilings and derating candidates) commits `control_charge_current = 0`
and `control_discharge_current = 0` — the zero candidate satisfies the
commit throttle's `ccl == 0` clause, so no timing condition is needed —
clears both allow flags, and completes without raising. -/
theorem C4_disconnect_zeroes (cfg : Config) (t : ℤ)
    (cv_c t_c soc_c cv_d t_d soc_d : ℚ) (s : CCLState)
    (hblock : s.block_because_disconnect = true)
    (hmaxc : 0 ≤ cfg.MAX_BATTERY_CHARGE_CURRENT)
    (hmaxd : 0 ≤ cfg.MAX_BATTERY_DISCHARGE_CURRENT)
    (hbmsc : ∀ m, s.max_battery_charge_current = some m → 0 ≤ m)
    (hbmsd : ∀ m, s.max_battery_discharge_current = some m → 0 ≤ m)
    (hcv_c : 0 ≤ cv_c) (ht_c : 0 ≤ t_c) (hsoc_c : 0 ≤ soc_c)
    (hcv_d : 0 ≤ cv_d) (ht_d : 0 ≤ t_d) (hsoc_d : 0 ≤ soc_d) :
    (manage_charge_current cfg t cv_c t_c soc_c cv_d t_d soc_d s).1.control_charge_current =
        some 0 ∧
    (manage_charge_current cfg t cv_c t_c soc_c cv_d t_d soc_d s).1.control_discharge_current =
        some 0 ∧
    (manage_charge_current cfg t cv_c t_c soc_c cv_d t_d soc_d s).1.control_allow_charge =
        some false ∧
    (manage_charge_current cfg t cv_c t_c soc_c cv_d t_d soc_d s).1.control_allow_discharge =
        some false ∧
    (manage_charge_current cfg t cv_c t_c soc_c cv_d t_d soc_d s).2 = false := by
  have hcz : dictMinKey (charge_limits_dict cfg s cv_c t_c soc_c) 0 = 0 :=
    dictMinKey_eq_zero
      (charge_limits_keys_nonneg cfg s cv_c t_c soc_c hmaxc hbmsc hcv_c ht_c hsoc_c)
      (charge_limits_has_zero cfg s cv_c t_c soc_c hblock)
  unfold manage_charge_current
  dsimp only
  rw [hcz, roundTo_zero]
  rw [if_pos (Eq.refl (0 : ℚ)), ite_self]
  dsimp only
  refine ⟨?_, ?_, ?_, ?_, ?_⟩
  · rw [(mcc_discharge_frame cfg t cv_d t_d soc_d _).1]
    simp
  · refine (mcc_discharge_zero cfg t cv_d t_d soc_d ?_ ?_ hmaxd ?_ hcv_d ht_d hsoc_d).1
    · exact hblock
    · exact hbmsd
  · rw [(mcc_discharge_frame cfg t cv_d t_d soc_d _).2.2]
    simp
  · refine (mcc_discharge_zero cfg t cv_d t_d soc_d ?_ ?_ hmaxd ?_ hcv_d ht_d hsoc_d).2.1
    · exact hblock
    · exact hbmsd
  · refine (mcc_discharge_zero cfg t cv_d t_d soc_d ?_ ?_ hmaxd ?_ hcv_d ht_d hsoc_d).2.2
    · exact hblock
    · exact hbmsd

/-- A state freshly latched by a disconnect, with both limits previously
committed at their ceilings. -/
def c4State : CCLState :=
  { max_battery_charge_current := some 50
    max_battery_discharge_current := some 60
    charge_fet := some true
    discharge_fet := some true
    block_because_disconnect := true
    control_charge_current := some 50
    control_discharge_current := some 60
    control_allow_charge := some true
    control_allow_discharge := some true
    charge_limitation := some labelMaxChargeCurrent
    discharge_limitation := some labelMaxDischargeCurrent
    linear_ccl_last_set := 0
    linear_dcl_last_set := 0 }

/-- C4, witness: the disconnect theorem applied at `c4State` with
nonnegative candidates 40/45/50 (charge) and 55/60/65 (discharge). -/
theorem C4_disconnect_zeroes_witness :
    c4State.block_because_disconnect = true ∧
    (0 : ℚ) ≤ baseCfg.MAX_BATTERY_CHARGE_CURRENT ∧
    (0 : ℚ) ≤ baseCfg.MAX_BATTERY_DISCHARGE_CURRENT ∧
    (∀ m, c4State.max_battery_charge_current = some m → 0 ≤ m) ∧
    (∀ m, c4State.max_battery_discharge_current = some m → 0 ≤ m) ∧
    (manage_charge_current baseCfg 5 40 45 50 55 60 65 c4State).1.control_charge_current =
        some 0 ∧
    (manage_charge_current baseCfg 5 40 45 50 55 60 65 c4State).1.control_discharge_current =
        some 0 ∧
    (manage_charge_current baseCfg 5 40 45 50 55 60 65 c4State).1.control_allow_charge =
        some false ∧
    (manage_charge_current baseCfg 5 40 45 50 55 60 65 c4State).1.control_allow_discharge =
        some false ∧
    (manage_charge_current baseCfg 5 40 45 50 55 60 65 c4State).2 = false := by
  have h := C4_disconnect_zeroes baseCfg 5 40 45 50 55 60 65 c4State rfl
    (by norm_num [baseCfg]) (by norm_num [baseCfg])
    (by intro m hm; simp [c4State] at hm; simp [← hm])
    (by intro m hm; simp [c4State] at hm; simp [← hm])
    (by norm_num) (by norm_num) (by norm_num) (by norm_num) (by norm_num) (by norm_num)
  exact ⟨rfl, by norm_num [baseCfg], by norm_num [baseCfg],
    by intro m hm; simp [c4State] at hm; simp [← hm],
    by intro m hm; simp [c4State] at hm; simp [← hm],
    h.1, h.2.1, h.2.2.1, h.2.2.2.1, h.2.2.2.2⟩

/-- C8: when the newly computed CCL is nonzero, less than
`LINEAR_RECALCULATION_EVERY` seconds have passed since
`linear_ccl_last_set`, and the absolute change from the previously
committed `control_charge_current` is below
`LINEAR_RECALCULATION_ON_PERC_CHANGE` percent of that previous value,
`manage_charge_current` leaves `control_charge_current` and
`charge_limitation` unchanged. -/
theorem C8_ccl_throttle (cfg : Config) (t : ℤ) (cv_c t_c soc_c cv_d t_d soc_d : ℚ)
    (s : CCLState) (p : ℚ)
    (hprev : s.control_charge_current = some p)
    (hccl : ¬ roundTo 3 (dictMinKey (charge_limits_dict cfg s cv_c t_c soc_c) 0) = 0)
    (htime : ¬ cfg.LINEAR_RECALCULATION_EVERY ≤ t - s.linear_ccl_last_set)
    (hdiff : ¬ |p - roundTo 3 (dictMinKey (charge_limits_dict cfg s cv_c t_c soc_c) 0)| ≥
        p * cfg.LINEAR_RECALCULATION_ON_PERC_CHANGE / 100) :
    (manage_charge_current cfg t cv_c t_c soc_c cv_d t_d soc_d s).1.control_charge_current =
        some p ∧
    (manage_charge_current cfg t cv_c t_c soc_c cv_d t_d soc_d s).1.charge_limitation =
        s.charge_limitation := by
  unfold manage_charge_current
  dsimp only
  rw [hprev]
  dsimp only
  rw [if_neg htime, if_neg hccl, decide_eq_false hdiff]
  dsimp only
  constructor
  · rw [(mcc_discharge_frame cfg t cv_d t_d soc_d _).1]
    simp [hprev]
  · rw [(mcc_discharge_frame cfg t cv_d t_d soc_d _).2.1]
    simp

/-- The default configuration with the three charge-derating rules
disabled, so the only charge candidate is the 70 A global ceiling. -/
def c8Cfg : Config :=
  { baseCfg with CCCM_CV_ENABLE := false, CCCM_T_ENABLE := false,
                 CCCM_SOC_ENABLE := false }

/-- A state 3 s after its last CCL commit of 69 A, about to see the 70 A
ceiling candidate (a 1 A ≈ 1.45 % change, below the 5 % threshold). -/
def c8State : CCLState :=
  { max_battery_charge_current := none
    max_battery_discharge_current := none
    charge_fet := some true
    discharge_fet := some true
    block_because_disconnect := false
    control_charge_current := some 69
    control_discharge_current := some 60
    control_allow_charge := some true
    control_allow_discharge := some true
    charge_limitation := some labelCellVoltage
    discharge_limitation := some labelMaxDischargeCurrent
    linear_ccl_last_set := 0
    linear_dcl_last_set := 0 }

/-- C8, witness: the throttle theorem applied at `c8State` at t = 3 s —
the new CCL is 70 A, a sub-threshold 1 A delta over the committed 69 A,
so nothing is committed. -/
theorem C8_ccl_throttle_witness :
    c8State.control_charge_current = some 69 ∧
    ¬ roundTo 3 (dictMinKey (charge_limits_dict c8Cfg c8State 51 52 53) 0) = 0 ∧
    ¬ c8Cfg.LINEAR_RECALCULATION_EVERY ≤ 3 - c8State.linear_ccl_last_set ∧
    ¬ |(69 : ℚ) - roundTo 3 (dictMinKey (charge_limits_dict c8Cfg c8State 51 52 53) 0)| ≥
        69 * c8Cfg.LINEAR_RECALCULATION_ON_PERC_CHANGE / 100 ∧
    (manage_charge_current c8Cfg 3 51 52 53 60 60 60 c8State).1.control_charge_current =
        some 69 ∧
    (manage_charge_current c8Cfg 3 51 52 53 60 60 60 c8State).1.charge_limitation =
        c8State.charge_limitation := by
  have h70 : roundTo 3 (70 : ℚ) = 70 := by
    rw [roundTo_eq_of 3 (70 : ℚ) 70000 (by norm_num) (by norm_num)]
    norm_num
  have hmk : dictMinKey (charge_limits_dict c8Cfg c8State 51 52 53) 0 = 70 := by
    simp [charge_limits_dict, limits_with_bms, limits_with_rule,
      limits_with_hard_zero, dictMinKey, c8Cfg, c8State, baseCfg]
  have h1 : ¬ roundTo 3 (dictMinKey (charge_limits_dict c8Cfg c8State 51 52 53) 0) = 0 := by
    rw [hmk, h70]
    norm_num
  have h2 : ¬ c8Cfg.LINEAR_RECALCULATION_EVERY ≤ 3 - c8State.linear_ccl_last_set := by
    norm_num [c8State, c8Cfg, baseCfg]
  have h3 : ¬ |(69 : ℚ) - roundTo 3 (dictMinKey (charge_limits_dict c8Cfg c8State 51 52 53) 0)| ≥
      69 * c8Cfg.LINEAR_RECALCULATION_ON_PERC_CHANGE / 100 := by
    rw [hmk, h70]
    rw [show |(69 : ℚ) - 70| = 1 by rw [abs_sub_comm]; norm_num [abs_of_nonneg]]
    norm_num [c8Cfg, baseCfg]
  have h := C8_ccl_throttle c8Cfg 3 51 52 53 60 60 60 c8State 69 rfl h1 h2 h3
  exact ⟨rfl, h1, h2, h3, h.1, h.2⟩

/-- C9: if the interpolation inside
`calcMaxDischargeCurrentReferringToCellVoltage` raises, the function
returns `max_battery_charge_current` — the charge-side default, not the
discharge counterpart — and the exception does not propagate (the
embedded function is total and the fallback is its value). -/
theorem C9_discharge_fallback (curve : Option ℚ → Option ℚ) (s : DcvState)
    (hraise : curve (get_min_cell_voltage s.cells s.cell_min_voltage) = none) :
    calcMaxDischargeCurrentReferringToCellVoltage curve s =
      s.max_battery_charge_current := by
  unfold calcMaxDischargeCurrentReferringToCellVoltage
  rw [hraise]

/-- A battery with no cell telemetry and distinct configured ceilings:
25 A charge, 80 A discharge. -/
def c9State : DcvState :=
  { cells := []
    cell_min_voltage := none
    max_battery_charge_current := some 25
    max_battery_discharge_current := some 80 }

/-- C9, witness: with no cells the minimum cell voltage is `None` and the
interpolation raises (`curve` returns `none`); the result is the
charge-side 25 A ceiling, not the discharge-side 80 A one. -/
theorem C9_discharge_fallback_witness :
    (fun _ : Option ℚ => (none : Option ℚ))
        (get_min_cell_voltage c9State.cells c9State.cell_min_voltage) = none ∧
    calcMaxDischargeCurrentReferringToCellVoltage (fun _ => none) c9State =
      c9State.max_battery_charge_current ∧
    c9State.max_battery_charge_current = some 25 ∧
    c9State.max_battery_discharge_current = some 80 ∧
    ¬ c9State.max_battery_charge_current = c9State.max_battery_discharge_current :=
  ⟨rfl, C9_discharge_fallback (fun _ => none) c9State rfl, rfl, rfl,
   by norm_num [c9State]⟩

/-- Bounds hold for a present value, or the field is `None`: either way
the out-of-range test is false. -/
lemma field_out_of_range_false {lo hi : ℚ} {x : Option ℚ}
    (h : x.all (fun v => decide (lo ≤ v) && decide (v ≤ hi)) = true) :
    field_out_of_range lo hi x = false := by
  cases hx : x with
  | none => rfl
  | some v =>
    rw [hx] at h
    simp only [Option.all_some, Bool.and_eq_true, decide_eq_true_eq] at h
    simp only [field_out_of_range, Bool.or_eq_false_iff, decide_eq_false_iff_not,
      not_lt]
    exact ⟨h.1, h.2⟩

lemma current_out_of_range_false {x : Option ℚ}
    (h : x.all (fun c => decide (|c| ≤ 1000)) = true) :
    current_out_of_range x = false := by
  cases hx : x with
  | none => rfl
  | some c =>
    rw [hx] at h
    simp only [Option.all_some, decide_eq_true_eq] at h
    simp only [current_out_of_range, decide_eq_false_iff_not, not_lt]
    exact h

/-- C10: `validate_data` returns true for every state in which each of
`capacity`, `current`, `voltage` and `soc` is either `None` or within
its bound (capacity in [0, 1000], |current| ≤ 1000, voltage in
[0, 100], soc in [0, 100]); entirely missing telemetry is therefore
never rejected by the bounds check. -/
theorem C10_validate_data_accepts (s : ValState)
    (hcap : s.capacity.all (fun c => decide ((0 : ℚ) ≤ c) && decide (c ≤ 1000)) = true)
    (hcur : s.current.all (fun c => decide (|c| ≤ 1000)) = true)
    (hvol : s.voltage.all (fun v => decide ((0 : ℚ) ≤ v) && decide (v ≤ 100)) = true)
    (hsoc : s.soc.all (fun v => decide ((0 : ℚ) ≤ v) && decide (v ≤ 100)) = true) :
    validate_data s = true := by
  unfold validate_data
  rw [field_out_of_range_false hcap, current_out_of_range_false hcur,
    field_out_of_range_false hvol, field_out_of_range_false hsoc]
  rfl

/-- The all-`None` telemetry state. -/
def c10State : ValState :=
  { capacity := none, current := none, voltage := none, soc := none }

/-- C10, witness: the acceptance theorem applied at the all-`None` state:
entirely missing telemetry passes validation. -/
theorem C10_validate_data_accepts_witness :
    c10State.capacity.all (fun c => decide ((0 : ℚ) ≤ c) && decide (c ≤ 1000)) = true ∧
    c10State.current.all (fun c => decide (|c| ≤ 1000)) = true ∧
    c10State.voltage.all (fun v => decide ((0 : ℚ) ≤ v) && decide (v ≤ 100)) = true ∧
    c10State.soc.all (fun v => decide ((0 : ℚ) ≤ v) && decide (v ≤ 100)) = true ∧
    validate_data c10State = true :=
  ⟨rfl, rfl, rfl, rfl,
   C10_validate_data_accepts c10State rfl rfl rfl rfl⟩

end TinkerBMS
